import Mathlib

/-!
Shallow embedding of the OpenStack machine-controller-manager provider's
executor (`pkg/driver/executor/executor.go`) together with the pieces of the
`client` and `cloudprovider` packages it relies on.  Cloud interactions are
modelled by an environment of oracle responses (`Env`); every outbound
mutating or resolving call the executor issues is additionally recorded in a
trace of `Action`s so that statements such as "no update call is issued" or
"no second instance creation" are directly observable.
-/

namespace OSExec

/-- Character-level test that `needle` is a leading run of `hay`. -/
def strStartsAt : List Char → List Char → Bool
  | [], _ => true
  | _ :: _, [] => false
  | a :: as, b :: bs => a == b && strStartsAt as bs

/-- Character-level test that `needle` occurs contiguously inside the list. -/
def strFindRun (needle : List Char) : List Char → Bool
  | [] => strStartsAt needle []
  | c :: rest => strStartsAt needle (c :: rest) || strFindRun needle rest

/-- Embedding of Go `strings.Contains hay needle`. -/
def strContains (hay needle : String) : Bool :=
  strFindRun needle.data hay.data

/-- Splitting a character list at commas; the embedding of Go
`strings.Split(s, ",")` (which yields `[""]` on the empty string). -/
def splitCommaChars : List Char → List (List Char)
  | [] => [[]]
  | c :: rest =>
    if c = ',' then [] :: splitCommaChars rest
    else
      match splitCommaChars rest with
      | [] => [[c]]
      | g :: gs => (c :: g) :: gs

/-- Embedding of Go `strings.Split(s, ",")`. -/
def goSplitComma (s : String) : List String :=
  (splitCommaChars s.data).map (fun cs => String.mk cs)

/-- Character-list lexicographic order used to model the sorted output of
`sets.NewString(...).List()`. -/
def charListBefore : List Char → List Char → Bool
  | [], [] => false
  | [], _ :: _ => true
  | _ :: _, [] => false
  | a :: as, b :: bs =>
    if a.toNat < b.toNat then true
    else if a.toNat == b.toNat then charListBefore as bs
    else false

/-- Sorted insertion without duplicates. -/
def insSortedNoDup (x : String) : List String → List String
  | [] => [x]
  | y :: ys =>
    if x == y then y :: ys
    else if charListBefore x.data y.data then x :: y :: ys
    else y :: insSortedNoDup x ys

/-- Embedding of `sets.NewString(l...).List()`: the sorted duplicate-free
list of the input strings. -/
def goSortedSet (l : List String) : List String := l.foldr insSortedNoDup []

/-- Embedding of `strSliceContains` (helper of the executor package whose
body is not under `src/`; its use in `waitForStatus` makes it a plain
membership test on a string slice). -/
def strSliceContains (ss : List String) (s : String) : Bool := ss.contains s

/-- Modelled from the spec: the executor helper `isEmptyString(s *string)`
(not under `src/`) — optional config fields are presence/absence unions, so
a `nil` pointer and an empty string both count as "empty". -/
def isEmptyString : Option String → Bool
  | none => true
  | some s => s == ""

/-- Modelled from the spec: `cloudprovider.ServerTagClusterPrefix`, the fixed
cluster marker searched for inside configured tag keys (constant not under
`src/`). -/
def serverTagClusterMarker : String := "kubernetes.io-cluster-"

/-- Modelled from the spec: `cloudprovider.ServerTagRolePrefix`, the fixed
node-role marker searched for inside configured tag keys (constant not under
`src/`). -/
def serverTagRoleMarker : String := "kubernetes.io-role-"

/-- Modelled from the spec: the `client` package server status constants
(instance states {building, active, error, deleted}). -/
def ServerStatusBuild : String := "BUILD"

/-- Modelled from the spec: target state of a successful create. -/
def ServerStatusActive : String := "ACTIVE"

/-- Modelled from the spec: generic error state of an instance. -/
def ServerStatusError : String := "ERROR"

/-- Modelled from the spec: state of a deleted instance (absence). -/
def ServerStatusDeleted : String := "DELETED"

/-- Modelled from the spec: volume state while being created. -/
def VolumeStatusCreating : String := "creating"

/-- Modelled from the spec: volume state while the image is downloaded. -/
def VolumeStatusDownloading : String := "downloading"

/-- Modelled from the spec: volume state when ready for use. -/
def VolumeStatusAvailable : String := "available"

/-- Modelled from the spec: volume error state. -/
def VolumeStatusError : String := "error"

/-- Modelled from the spec: volume state while being deleted (absence). -/
def VolumeStatusDeleting : String := "deleting"

/-- Go error values threaded through the executor, classified the way the
executor observes them: wrapping of the package sentinels
`executor.ErrNotFound` / `executor.ErrMultipleFound` (tested with
`errors.Is`), cloud-level 404s (tested with `client.IsNotFoundError`), and
everything else. -/
inductive GoErr where
  | errNotFound (msg : String)
  | errMultipleFound (msg : String)
  | cloudNotFound (msg : String)
  | internal (msg : String)
deriving DecidableEq, Repr

/-- The message carried by an error (for `%v`/`%s` formatting). -/
def goErrMsg : GoErr → String
  | .errNotFound m => m
  | .errMultipleFound m => m
  | .cloudNotFound m => m
  | .internal m => m

/-- Embedding of `errors.Is(err, executor.ErrNotFound)`. -/
def errorsIsNotFound : GoErr → Bool
  | .errNotFound _ => true
  | _ => false

/-- Embedding of `errors.Is(err, executor.ErrMultipleFound)`. -/
def errorsIsMultipleFound : GoErr → Bool
  | .errMultipleFound _ => true
  | _ => false

/-- Modelled from the spec: `client.IsNotFoundError` (not under `src/`)
holds exactly for cloud-level not-found errors; in particular it is false
on a `nil` error. -/
def isNotFoundError : GoErr → Bool
  | .cloudNotFound _ => true
  | _ => false

/-- `client.IsNotFoundError` applied to a possibly-`nil` Go error. -/
def isNotFoundErrorO : Option GoErr → Bool
  | none => false
  | some e => isNotFoundError e

/-- Rendering of a possibly-`nil` error for `%s` formatting. -/
def goErrMsgO : Option GoErr → String
  | none => "%!s(<nil>)"
  | some e => goErrMsg e

/-- An OpenStack server as the executor reads it (`servers.Server`
projected onto the fields the executor uses). -/
structure Server where
  id : String
  name : String
  status : String
  fault : String
  metadata : List (String × String)
deriving DecidableEq, Repr

/-- A Cinder volume (`volumes.Volume` projected onto the used fields). -/
structure Volume where
  id : String
  name : String
  status : String
deriving DecidableEq, Repr

/-- The zero value `volumes.Volume{}`. -/
def Volume.empty : Volume := ⟨"", "", ""⟩

/-- A Neutron allowed-address pair (`ports.AddressPair`). -/
structure AddressPair where
  ipAddress : String
deriving DecidableEq, Repr

/-- A Neutron port (`ports.Port` projected onto the used fields). -/
structure Port where
  id : String
  networkID : String
  allowedAddressPairs : List AddressPair
deriving DecidableEq, Repr

/-- A `bootfromvolume.BlockDevice`. -/
structure BlockDevice where
  uuid : String
  sourceType : String
  destinationType : String
  volumeSize : Nat
  bootIndex : Nat
  deleteOnTermination : Bool
deriving DecidableEq, Repr

/-- One entry of the config's named-network list (`v1alpha1.OpenStackNetwork`). -/
structure NetworkSpec where
  id : String
  name : String
  podNetwork : Bool
deriving DecidableEq, Repr

/-- A `servers.Network` attachment entry (UUID plus optional port; in Go the
port field is a string with `""` meaning unset). -/
structure ServerNetwork where
  uuid : String
  port : String
deriving DecidableEq, Repr

/-- The machine provider configuration
(`api.MachineProviderConfig.Spec` projected onto the fields the executor
uses). -/
structure Spec where
  region : String
  availabilityZone : String
  imageID : String
  imageName : String
  flavorName : String
  keyName : String
  securityGroups : List String
  tags : List (String × String)
  networkID : String
  subnetID : Option String
  subnetIDs : List String
  networks : List NetworkSpec
  podNetworkCidr : String
  rootDiskSize : Nat
  volumeType : Option String
  serverGroupID : Option String
deriving DecidableEq, Repr

/-- Key lookup in a Go `map[string]string` modelled as an association
list (`_, ok := m[k]`). -/
def hasKey (m : List (String × String)) (k : String) : Bool :=
  m.any (fun kv => kv.1 == k)

/-- Oracle responses of the cloud platform.  Each field gives the response
the corresponding client call would return; the three `…Polls` lists give
the successive responses observed by the bounded polling loops. -/
structure Env where
  listServersByName : String → Except GoErr (List Server)
  listAllServers : Except GoErr (List Server)
  getServer : String → Except GoErr Server
  createWaitPolls : List (Except GoErr Server)
  deleteWaitPolls : List (Except GoErr Server)
  volumeWaitPolls : List (Except GoErr Volume)
  listVolumesByName : String → Except GoErr (List Volume)
  createVolumeRes : Except GoErr Volume
  deleteVolumeRes : String → Option GoErr
  getSubnetRes : String → Option GoErr
  portIDFromName : String → Except GoErr String
  createPortRes : Except GoErr Port
  deletePortRes : String → Option GoErr
  groupIDFromName : String → Except GoErr String
  networkIDFromName : String → Except GoErr String
  imageIDFromName : String → Except GoErr String
  flavorIDFromName : String → Except GoErr String
  listPortsByDevice : String → Except GoErr (List Port)
  updatePortRes : String → Option GoErr
  createServerRes : Except GoErr Server
  bootFromVolumeRes : Except GoErr Server
  deleteServerRes : String → Option GoErr

/-- Outbound cloud calls recorded while the executor runs. -/
inductive Action where
  | createServer (name : String)
  | bootFromVolume (name : String) (blockDevices : List BlockDevice)
  | deleteServer (id : String)
  | createVolume (name : String) (size : Nat) (volType : String) (imageID : String)
  | deleteVolume (id : String) (cascade : Bool)
  | getSubnet (id : String)
  | lookupPort (name : String)
  | createPort (name : String) (networkID : String) (subnets : List String)
  | deletePort (id : String)
  | updatePort (id : String) (pairs : List String)
  | lookupNetwork (name : String)
  | lookupGroup (name : String)
  | lookupImage (name : String)
  | lookupFlavor (name : String)
deriving DecidableEq, Repr

/-- Modelled from the spec: `encodeProviderID` (provider-ID codec file not
under `src/`) combines region and raw instance ID into the opaque provider
identity. -/
def encodeProviderID (region id : String) : String :=
  "openstack:///" ++ region ++ "/" ++ id

/-- Modelled from the spec: `decodeProviderID` recovers the raw instance ID
(the segment after the final slash). -/
def decodeProviderID (pid : String) : String :=
  (goSplitComma ((pid.data.map (fun c => if c = '/' then ',' else c)).asString)).getLastD ""

/-- Embedding of `Executor.getSubnetIDs` (executor.go:126): the configured
subnet-ID list plus the optional single subnet ID, as a sorted set. -/
def getSubnetIDs (cfg : Spec) : List String :=
  goSortedSet (cfg.subnetIDs ++ (match cfg.subnetID with
    | some s => [s]
    | none => []))

/-- Embedding of `Executor.isUserManagedNetwork` (executor.go:769). -/
def isUserManagedNetwork (cfg : Spec) : Bool :=
  !(isEmptyString (some cfg.networkID)) && !(getSubnetIDs cfg).isEmpty

/-- The search loop of `checkBootVolume` (executor.go:387-391): first listed
volume whose name matches, else the zero volume; the error result is the
`nil` it is paired with. -/
def findVolByName (name : String) : List Volume → Volume × Option GoErr
  | [] => (Volume.empty, none)
  | v :: rest => if v.name == name then (v, none) else findVolByName name rest

/-- Embedding of `Executor.checkBootVolume` (executor.go:382-393).  The
error returned by `ListVolumes` is never consulted: on error the listed
slice is `nil`, the loop body never runs, and the function returns the zero
volume with a `nil` error. -/
def checkBootVolume (env : Env) (name : String) : Volume × Option GoErr :=
  match env.listVolumesByName name with
  | .error _ => (Volume.empty, none)
  | .ok vols => findVolByName name vols

/-- Outcome of one bounded polling loop: success or hard failure after a
number of polls, or exhaustion of the deadline. -/
inductive WaitResult where
  | success (polls : Nat)
  | failure (polls : Nat) (e : GoErr)
  | timeout
deriving DecidableEq, Repr

/-- Decision of a single poll step. -/
inductive PollStep where
  | done
  | again
  | failed (e : GoErr)
deriving DecidableEq, Repr

/-- The per-poll decision function of `Executor.waitForStatus`
(executor.go:193-217), evaluated on one `GetServer` response. -/
def waitForStatusStep (pending target : List String) (res : Except GoErr Server) : PollStep :=
  match res with
  | .error e =>
    if isNotFoundError e && strSliceContains target ServerStatusDeleted then .done
    else .failed e
  | .ok current =>
    if strSliceContains target current.status then .done
    else if pending.isEmpty || strSliceContains pending current.status then .again
    else
      let baseMsg := "server [ID] reached unexpected status " ++ current.status
      if current.status == ServerStatusError then
        .failed (.internal (baseMsg ++ ", fault: " ++ current.fault))
      else .failed (.internal baseMsg)

/-- The polling loop of `Executor.waitForStatus` (executor.go:192-219) run
over the finite sequence of responses the environment supplies; running out
of responses models exceeding the timeout. -/
def waitForStatusRun (pending target : List String) : List (Except GoErr Server) → WaitResult
  | [] => .timeout
  | r :: rest =>
    match waitForStatusStep pending target r with
    | .done => .success 1
    | .failed e => .failure 1 e
    | .again =>
      match waitForStatusRun pending target rest with
      | .success n => .success (n + 1)
      | .failure n e => .failure (n + 1) e
      | .timeout => .timeout

/-- The per-poll decision function of `Executor.waitForVolumeStatus`
(executor.go:224-248), evaluated on one `GetVolume` response. -/
def waitForVolumeStatusStep (pending target : List String) (res : Except GoErr Volume) : PollStep :=
  match res with
  | .error e =>
    if isNotFoundError e && strSliceContains target VolumeStatusDeleting then .done
    else .failed e
  | .ok current =>
    if strSliceContains target current.status then .done
    else if pending.isEmpty || strSliceContains pending current.status then .again
    else .failed (.internal ("volume [ID] reached unexpected status " ++ current.status))

/-- The polling loop of `Executor.waitForVolumeStatus` (executor.go:223-250)
run over the environment's response sequence. -/
def waitForVolumeStatusRun (pending target : List String) : List (Except GoErr Volume) → WaitResult
  | [] => .timeout
  | r :: rest =>
    match waitForVolumeStatusStep pending target r with
    | .done => .success 1
    | .failed e => .failure 1 e
    | .again =>
      match waitForVolumeStatusRun pending target rest with
      | .success n => .success (n + 1)
      | .failure n e => .failure (n + 1) e
      | .timeout => .timeout

/-- The error `wait.Poll` returns when the deadline is exceeded. -/
def timedOutErr : GoErr := .internal "timed out waiting for the condition"

/-- Collapse a `WaitResult` to the Go error the wait call returns
(`nil` on success, the poll error on hard failure, `wait.ErrWaitTimeout`
on deadline exhaustion). -/
def waitOutcome : WaitResult → Option GoErr
  | .success _ => none
  | .failure _ e => some e
  | .timeout => some timedOutErr

/-- The tag-key derivation scan shared by `getMachineByID`,
`getMachineByName` and `listServers` (executor.go:646-652, 676-682,
737-743): one pass over the configured tag keys, where a key containing the
cluster marker sets the cluster key and otherwise (`else if`) a key
containing the role marker sets the role key; a later match overwrites an
earlier one. -/
def tagScanStep (acc : String × String) (kv : String × String) : String × String :=
  if strContains kv.1 serverTagClusterMarker then (kv.1, acc.2)
  else if strContains kv.1 serverTagRoleMarker then (acc.1, kv.1)
  else acc

/-- The derived (cluster key, role key) pair: the scan of `tagScanStep`
started from two empty keys. -/
def deriveTagKeys (tags : List (String × String)) : String × String :=
  tags.foldl tagScanStep ("", "")

/-- Embedding of `Executor.getMachineByID` (executor.go:630-662): fetch by
raw server ID, normalise a cloud 404 into the `ErrNotFound` sentinel, and
require both derived tag keys in the server's metadata. -/
def getMachineByID (env : Env) (cfg : Spec) (serverID : String) : Except GoErr Server :=
  match env.getServer serverID with
  | .error e =>
    if isNotFoundError e then
      .error (.errNotFound ("could not find server [ID=" ++ serverID ++ "]"))
    else .error e
  | .ok server =>
    let keys := deriveTagKeys cfg.tags
    if hasKey server.metadata keys.1 && hasKey server.metadata keys.2 then .ok server
    else .error (.errNotFound ("could not find server [ID=" ++ serverID ++ "]"))

/-- Embedding of `Executor.getMachineByName` (executor.go:670-714): list by
name, keep servers whose name matches and whose metadata carries both
derived tag keys; more than one match is `ErrMultipleFound`, none is
`ErrNotFound`. -/
def getMachineByName (env : Env) (cfg : Spec) (machineName : String) : Except GoErr Server :=
  let keys := deriveTagKeys cfg.tags
  if keys.1 == "" || keys.2 == "" then
    .error (.internal ("getMachineByName operation can not proceed: cluster/role tags are missing for machine [Name=" ++ machineName ++ "]"))
  else
    match env.listServersByName machineName with
    | .error e => .error e
    | .ok listedServers =>
      let matching := listedServers.filter (fun s =>
        s.name == machineName && hasKey s.metadata keys.1 && hasKey s.metadata keys.2)
      if matching.length > 1 then
        .error (.errMultipleFound ("failed to find server [Name=" ++ machineName ++ "]"))
      else
        match matching with
        | [] => .error (.errNotFound ("failed to find server [Name=" ++ machineName ++ "]"))
        | m :: _ => .ok m

/-- Embedding of `Executor.listServers` (executor.go:733-766): fail when
either derived tag key is empty, otherwise keep the listed servers whose
metadata carries both keys. -/
def listServersF (env : Env) (cfg : Spec) : Except GoErr (List Server) :=
  let keys := deriveTagKeys cfg.tags
  if keys.1 == "" || keys.2 == "" then
    .error (.internal "operation can not proceed: cluster/role tags are missing")
  else
    match env.listAllServers with
    | .error e => .error e
    | .ok allServers =>
      .ok (allServers.filter (fun s => hasKey s.metadata keys.1 && hasKey s.metadata keys.2))

/-- Embedding of `Executor.ListMachines` (executor.go:717-730): the kept
servers mapped from encoded provider ID to name. -/
def ListMachines (env : Env) (cfg : Spec) : Except GoErr (List (String × String)) :=
  match listServersF env cfg with
  | .error e => .error e
  | .ok allServers =>
    .ok (allServers.map (fun s => (encodeProviderID cfg.region s.id, s.name)))

/-- Embedding of `Executor.deletePort` (executor.go:608-627): resolve the
port by machine name (not-found means already deleted) and delete it. -/
def deletePortF (env : Env) (machineName : String) : Option GoErr × List Action :=
  match env.portIDFromName machineName with
  | .error e =>
    if isNotFoundError e then (none, [.lookupPort machineName])
    else (some (.internal ("error deleting port [Name=" ++ machineName ++ "]: " ++ goErrMsg e)), [.lookupPort machineName])
  | .ok portID =>
    match env.deletePortRes portID with
    | some e => (some e, [.lookupPort machineName, .deletePort portID])
    | none => (none, [.lookupPort machineName, .deletePort portID])

/-- The security-group resolution loop of `getOrCreatePort`
(executor.go:573-579). -/
def resolveGroupIDs (env : Env) : List String → Except GoErr (List String) × List Action
  | [] => (.ok [], [])
  | g :: rest =>
    match env.groupIDFromName g with
    | .error e => (.error e, [.lookupGroup g])
    | .ok gid =>
      match resolveGroupIDs env rest with
      | (.error e, tr) => (.error e, .lookupGroup g :: tr)
      | (.ok gids, tr) => (.ok (gid :: gids), .lookupGroup g :: tr)

/-- Embedding of `Executor.getOrCreatePort` (executor.go:553-607): reuse a
same-named port if one resolves; otherwise resolve security groups and
create a port on the configured network bound to the configured subnets. -/
def getOrCreatePort (env : Env) (cfg : Spec) (machineName : String) :
    Except GoErr String × List Action :=
  match env.portIDFromName machineName with
  | .ok portID => (.ok portID, [.lookupPort machineName])
  | .error e =>
    if !(isNotFoundError e) then
      (.error (.internal ("error fetching port [Name=" ++ machineName ++ "]: " ++ goErrMsg e)), [.lookupPort machineName])
    else
      match resolveGroupIDs env cfg.securityGroups with
      | (.error e2, tr) => (.error e2, .lookupPort machineName :: tr)
      | (.ok _sgIDs, tr) =>
        match env.createPortRes with
        | .error e3 =>
          (.error e3, .lookupPort machineName :: tr ++ [.createPort machineName cfg.networkID (getSubnetIDs cfg)])
        | .ok port =>
          (.ok port.id, .lookupPort machineName :: tr ++ [.createPort machineName cfg.networkID (getSubnetIDs cfg)])

/-- The subnet-existence loop of `resolveServerNetworks`
(executor.go:150-154). -/
def verifySubnets (env : Env) : List String → Option GoErr × List Action
  | [] => (none, [])
  | s :: rest =>
    match env.getSubnetRes s with
    | some e => (some e, [.getSubnet s])
    | none =>
      match verifySubnets env rest with
      | (r, tr) => (r, .getSubnet s :: tr)

/-- The named-network resolution loop of `resolveServerNetworks`
(executor.go:172-186): each entry independently, explicit ID when present,
else a name lookup. -/
def resolveNetworksLoop (env : Env) : List NetworkSpec → Except GoErr (List ServerNetwork) × List Action
  | [] => (.ok [], [])
  | n :: rest =>
    let step : Except GoErr String × List Action :=
      if isEmptyString (some n.id) then
        match env.networkIDFromName n.name with
        | .error e => (.error e, [.lookupNetwork n.name])
        | .ok rid => (.ok rid, [.lookupNetwork n.name])
      else (.ok n.id, [])
    match step with
    | (.error e, tr) => (.error e, tr)
    | (.ok rid, tr) =>
      match resolveNetworksLoop env rest with
      | (.error e, tr2) => (.error e, tr ++ tr2)
      | (.ok nws, tr2) => (.ok (⟨rid, ""⟩ :: nws), tr ++ tr2)

/-- Embedding of `Executor.resolveServerNetworks` (executor.go:138-188). -/
def resolveServerNetworks (env : Env) (cfg : Spec) (machineName : String) :
    Except GoErr (List ServerNetwork) × List Action :=
  if isUserManagedNetwork cfg then
    match verifySubnets env (getSubnetIDs cfg) with
    | (some e, tr) => (.error e, tr)
    | (none, tr) =>
      match getOrCreatePort env cfg machineName with
      | (.error e, tr2) => (.error e, tr ++ tr2)
      | (.ok portID, tr2) => (.ok [⟨cfg.networkID, portID⟩], tr ++ tr2)
  else if !(isEmptyString (some cfg.networkID)) then
    (.ok [⟨cfg.networkID, ""⟩], [])
  else resolveNetworksLoop env cfg.networks

/-- The pod-network-ID resolution loop of `resolveNetworkIDsForPodNetwork`
(executor.go:485-501): every entry is resolved (and can fail), those flagged
as pod networks are collected. -/
def resolvePodNetworkIDsLoop (env : Env) : List NetworkSpec → Except GoErr (List String) × List Action
  | [] => (.ok [], [])
  | n :: rest =>
    let step : Except GoErr String × List Action :=
      if isEmptyString (some n.id) then
        match env.networkIDFromName n.name with
        | .error e => (.error e, [.lookupNetwork n.name])
        | .ok rid => (.ok rid, [.lookupNetwork n.name])
      else (.ok n.id, [])
    match step with
    | (.error e, tr) => (.error e, tr)
    | (.ok rid, tr) =>
      match resolvePodNetworkIDsLoop env rest with
      | (.error e, tr2) => (.error e, tr ++ tr2)
      | (.ok ids, tr2) => (.ok (if n.podNetwork then rid :: ids else ids), tr ++ tr2)

/-- Embedding of `Executor.resolveNetworkIDsForPodNetwork`
(executor.go:473-503): with an explicit network ID only that network counts
as pod-carrying, else the flagged entries of the named-network list. -/
def resolvePodNetworkIDs (env : Env) (cfg : Spec) : Except GoErr (List String) × List Action :=
  if !(isEmptyString (some cfg.networkID)) then (.ok [cfg.networkID], [])
  else resolvePodNetworkIDsLoop env cfg.networks

/-- The `addressPairFound` double loop of `patchServerPortsForPodNetwork`
(executor.go:442-451): true when some allowed address pair equals some
configured pod CIDR. -/
def portHasSomePodCidr (podCidrs : List String) (port : Port) : Bool :=
  port.allowedAddressPairs.any (fun pair => podCidrs.any (fun c => pair.ipAddress == c))

/-- The per-port loop of `patchServerPortsForPodNetwork`
(executor.go:438-468): ports on a pod network that match no configured CIDR
get their allow-list replaced by the full configured list; an update error
aborts the loop. -/
def patchPortsLoop (env : Env) (podNetworkIDs podCidrs : List String) :
    List Port → Option GoErr × List Action
  | [] => (none, [])
  | port :: rest =>
    if podNetworkIDs.contains port.networkID then
      if portHasSomePodCidr podCidrs port then
        patchPortsLoop env podNetworkIDs podCidrs rest
      else
        match env.updatePortRes port.id with
        | some e =>
          (some (.internal ("failed to update allowed address pair for port [ID=" ++ port.id ++ "]: " ++ goErrMsg e)),
           [.updatePort port.id podCidrs])
        | none =>
          match patchPortsLoop env podNetworkIDs podCidrs rest with
          | (r, tr) => (r, .updatePort port.id podCidrs :: tr)
    else patchPortsLoop env podNetworkIDs podCidrs rest

/-- Embedding of `Executor.patchServerPortsForPodNetwork`
(executor.go:421-470). -/
def patchServerPortsForPodNetwork (env : Env) (cfg : Spec) (serverID : String) :
    Option GoErr × List Action :=
  match env.listPortsByDevice serverID with
  | .error e => (some (.internal ("failed to get ports: " ++ goErrMsg e)), [])
  | .ok allPorts =>
    if allPorts.isEmpty then
      (some (.internal ("got an empty port list for server " ++ serverID)), [])
    else
      match resolvePodNetworkIDs env cfg with
      | (.error e, tr) =>
        (some (.internal ("failed to resolve network IDs for the pod network " ++ goErrMsg e)), tr)
      | (.ok podNetworkIDs, tr) =>
        match patchPortsLoop env podNetworkIDs (goSplitComma cfg.podNetworkCidr) allPorts with
        | (r, tr2) => (r, tr ++ tr2)

/-- Embedding of `resourceInstanceBlockDevicesV2` (executor.go:395-418);
the Go function's error result is always `nil`, so it is embedded as a
total function. -/
def resourceInstanceBlockDevicesV2 (rootDiskSize : Nat) (imageID : String)
    (volumeID : Option String) : List BlockDevice :=
  match volumeID with
  | some vid =>
    [{ uuid := vid, sourceType := "volume", destinationType := "volume",
       volumeSize := 0, bootIndex := 0, deleteOnTermination := true }]
  | none =>
    [{ uuid := imageID, sourceType := "image", destinationType := "volume",
       volumeSize := rootDiskSize, bootIndex := 0, deleteOnTermination := true }]

/-- The image-reference resolution of `deployServer` (executor.go:272-279):
an explicit image ID wins, otherwise a name lookup. -/
def resolveImageRef (env : Env) (cfg : Spec) : Except GoErr String × List Action :=
  if cfg.imageID != "" then (.ok cfg.imageID, [])
  else
    match env.imageIDFromName cfg.imageName with
    | .error e =>
      (.error (.internal ("error resolving image ID from image name " ++ cfg.imageName ++ ": " ++ goErrMsg e)),
       [.lookupImage cfg.imageName])
    | .ok r => (.ok r, [.lookupImage cfg.imageName])

/-- The reuse-or-create part of `deployServer`'s typed-volume branch
(executor.go:327-341): reuse a same-named volume found by
`checkBootVolume`, else create one; on creation failure the (zero) volume
is best-effort deleted and the cleanup result is appended to the creation
error. -/
def obtainBootVolume (env : Env) (cfg : Spec) (machineName : String) (vt imageRef : String) :
    Except GoErr Volume × List Action :=
  match checkBootVolume env machineName with
  | (_, some e) => (.error e, [])
  | (vol0, none) =>
    if vol0.id == "" then
      match env.createVolumeRes with
      | .error e =>
        (.error (.internal ("error volume creation, " ++ goErrMsg e ++ " and deletion " ++ goErrMsgO (env.deleteVolumeRes ""))),
         [.createVolume machineName cfg.rootDiskSize vt imageRef, .deleteVolume "" true])
      | .ok v => (.ok v, [.createVolume machineName cfg.rootDiskSize vt imageRef])
    else (.ok vol0, [])

/-- Embedding of `Executor.deployServer` (executor.go:253-363).  The flavor
error message names the image (a verbatim slip of the source); with a
root-disk size and a volume type the boot volume is obtained, awaited out
of {downloading, creating} into {available}, and the instance is booted
from a block device carrying the volume's ID; a wait failure best-effort
deletes the volume and appends the cleanup result to the original error. -/
def deployServer (env : Env) (cfg : Spec) (machineName : String) (_nws : List ServerNetwork) :
    Except GoErr Server × List Action :=
  match resolveImageRef env cfg with
  | (.error e, tr) => (.error e, tr)
  | (.ok imageRef, tr1) =>
    match env.flavorIDFromName cfg.flavorName with
    | .error e =>
      (.error (.internal ("error resolving flavor ID from flavor name " ++ cfg.imageName ++ ": " ++ goErrMsg e)),
       tr1 ++ [.lookupFlavor cfg.flavorName])
    | .ok _flavorRef =>
      let tr2 := tr1 ++ [.lookupFlavor cfg.flavorName]
      if cfg.rootDiskSize > 0 then
        match cfg.volumeType with
        | none =>
          (env.bootFromVolumeRes,
           tr2 ++ [.bootFromVolume machineName (resourceInstanceBlockDevicesV2 cfg.rootDiskSize imageRef none)])
        | some vt =>
          match obtainBootVolume env cfg machineName vt imageRef with
          | (.error e, tr3) => (.error e, tr2 ++ tr3)
          | (.ok volume, tr3) =>
            match waitOutcome (waitForVolumeStatusRun [VolumeStatusDownloading, VolumeStatusCreating]
                [VolumeStatusAvailable] env.volumeWaitPolls) with
            | some e =>
              (.error (.internal ("error waiting for volume, " ++ goErrMsg e ++ " and deletion " ++ goErrMsgO (env.deleteVolumeRes volume.id))),
               tr2 ++ tr3 ++ [.deleteVolume volume.id true])
            | none =>
              (env.bootFromVolumeRes,
               tr2 ++ tr3 ++ [.bootFromVolume machineName (resourceInstanceBlockDevicesV2 cfg.rootDiskSize imageRef (some volume.id))])
      else
        (env.createServerRes, tr2 ++ [.createServer machineName])

/-- The volume-cleanup section of `DeleteMachine` (executor.go:532-545),
entered when a volume type is configured: `checkBootVolume`'s error is
checked (error branch) and the volume is deleted only under
`client.IsNotFoundError(err)` (not-found branch). -/
def deleteMachineVolumeSection (env : Env) (machineName : String) :
    Option GoErr × List Action :=
  match checkBootVolume env machineName with
  | (volume, errChk) =>
    if errChk.isSome && !(isNotFoundErrorO errChk) then
      (some (.internal ("error checking volume [ID=" ++ machineName ++ "]: " ++ goErrMsgO errChk)), [])
    else if isNotFoundErrorO errChk then
      match env.deleteVolumeRes volume.id with
      | some e => (some (.internal ("error deleting volume [ID=" ++ machineName ++ "]: " ++ goErrMsg e)), [.deleteVolume volume.id true])
      | none => (none, [.deleteVolume volume.id true])
    else (none, [])

/-- The target resolution of `DeleteMachine` (executor.go:513-518): by
decoded provider ID when one is given, else by name and tags. -/
def deleteMachineLookup (env : Env) (cfg : Spec) (machineName providerID : String) :
    Except GoErr Server :=
  if !(isEmptyString (some providerID)) then
    getMachineByID env cfg (decodeProviderID providerID)
  else getMachineByName env cfg machineName

/-- The instance-deletion phase of `DeleteMachine` (executor.go:513-531):
result error, trace, and whether control falls through to the auxiliary
cleanup steps (a found server must be deleted and awaited; a not-found
lookup falls through directly). -/
def deleteMachinePhase1 (env : Env) (cfg : Spec) (machineName providerID : String) :
    Option GoErr × List Action × Bool :=
  match deleteMachineLookup env cfg machineName providerID with
  | .ok server =>
    match env.deleteServerRes server.id with
    | some e => (some e, [.deleteServer server.id], false)
    | none =>
      match waitOutcome (waitForStatusRun [] [ServerStatusDeleted] env.deleteWaitPolls) with
      | some e =>
        (some (.internal ("error while waiting for server [ID=" ++ server.id ++ "] to be deleted: " ++ goErrMsg e)),
         [.deleteServer server.id], false)
      | none => (none, [.deleteServer server.id], true)
  | .error e =>
    if errorsIsNotFound e then (none, [], true) else (some e, [], false)

/-- Embedding of `Executor.DeleteMachine` (executor.go:507-551): resolve by
decoded provider ID when given, else by name and tags; a found server is
deleted and awaited to {deleted}; a not-found lookup falls through; then
the volume-cleanup section runs when a volume type is configured, and the
port is deleted when the network is user-managed. -/
def DeleteMachine (env : Env) (cfg : Spec) (machineName providerID : String) :
    Option GoErr × List Action :=
  match deleteMachinePhase1 env cfg machineName providerID with
  | (r, tr, false) => (r, tr)
  | (_, tr, true) =>
    let volPart : Option GoErr × List Action :=
      if !(isEmptyString cfg.volumeType) then deleteMachineVolumeSection env machineName
      else (none, [])
    match volPart with
    | (some e, tr2) => (some e, tr ++ tr2)
    | (none, tr2) =>
      if isUserManagedNetwork cfg then
        match deletePortF env machineName with
        | (r, tr3) => (r, tr ++ tr2 ++ tr3)
      else (none, tr ++ tr2)

/-- Embedding of the `deleteOnFail` closure of `CreateMachine`
(executor.go:73-94): best-effort deletion of the machine; when a volume
type is configured, `checkBootVolume`'s error is checked (error branch) and
the volume is deleted unless that error was a not-found (not-found
branch); every cleanup failure is reported together with the original
error. -/
def createDeleteOnFail (env : Env) (cfg : Spec) (machineName : String) (err : GoErr) :
    GoErr × List Action :=
  match DeleteMachine env cfg machineName "" with
  | (some errIn, dtr) =>
    (.internal ("error deleting server [Name=" ++ machineName ++ "] after unsuccessful creation attempt: " ++ goErrMsg errIn ++ ". Original error: " ++ goErrMsg err), dtr)
  | (none, dtr) =>
    if !(isEmptyString cfg.volumeType) then
      match checkBootVolume env machineName with
      | (volume, errChk) =>
        if errChk.isSome && !(isNotFoundErrorO errChk) then
          (.internal ("error checking volume [ID=" ++ machineName ++ "]: " ++ goErrMsgO errChk ++ ". Original error: " ++ goErrMsg err), dtr)
        else if !(isNotFoundErrorO errChk) then
          match env.deleteVolumeRes volume.id with
          | some errDel =>
            (.internal ("error deleting volume [ID=" ++ machineName ++ "]: " ++ goErrMsg errDel ++ ". Original error: " ++ goErrMsg err),
             dtr ++ [.deleteVolume volume.id true])
          | none => (err, dtr ++ [.deleteVolume volume.id true])
        else (err, dtr)
    else (err, dtr)

/-- Embedding of `Executor.CreateMachine` (executor.go:67-124): reuse a
same-named instance when the tag-filtered lookup finds one, otherwise
resolve networks and deploy; then await {building}→{active} and patch the
server's ports for the pod network; any failure past the lookup goes
through `deleteOnFail`. -/
def CreateMachine (env : Env) (cfg : Spec) (machineName : String) :
    Except GoErr String × List Action :=
  let phase : Except GoErr Server × List Action :=
    match getMachineByName env cfg machineName with
    | .ok server => (.ok server, [])
    | .error e =>
      if !(errorsIsNotFound e) then (.error e, [])
      else
        match resolveServerNetworks env cfg machineName with
        | (.error e2, tr) =>
          match createDeleteOnFail env cfg machineName
              (.internal ("failed to resolve server [Name=" ++ machineName ++ "] networks: " ++ goErrMsg e2)) with
          | (fe, ftr) => (.error fe, tr ++ ftr)
        | (.ok nws, tr) =>
          match deployServer env cfg machineName nws with
          | (.error e3, tr2) =>
            match createDeleteOnFail env cfg machineName
                (.internal ("failed to deploy server [Name=" ++ machineName ++ "]: " ++ goErrMsg e3)) with
            | (fe, ftr) => (.error fe, tr ++ tr2 ++ ftr)
          | (.ok server, tr2) => (.ok server, tr ++ tr2)
  match phase with
  | (.error e, tr) => (.error e, tr)
  | (.ok server, tr) =>
    match waitOutcome (waitForStatusRun [ServerStatusBuild] [ServerStatusActive] env.createWaitPolls) with
    | some e =>
      match createDeleteOnFail env cfg machineName
          (.internal ("error waiting for server [ID=" ++ server.id ++ "] to reach target status: " ++ goErrMsg e)) with
      | (fe, ftr) => (.error fe, tr ++ ftr)
    | none =>
      match patchServerPortsForPodNetwork env cfg server.id with
      | (some e, tr2) =>
        match createDeleteOnFail env cfg machineName
            (.internal ("failed to patch server [ID=" ++ server.id ++ "] ports: " ++ goErrMsg e)) with
        | (fe, ftr) => (.error fe, tr ++ tr2 ++ ftr)
      | (none, tr2) => (.ok (encodeProviderID cfg.region server.id), tr ++ tr2)

/-- A building server as observed by a poll. -/
def bldServer : Server := ⟨"sid", "m", ServerStatusBuild, "", []⟩

/-- An active server as observed by a poll. -/
def actServer : Server := ⟨"sid", "m", ServerStatusActive, "", []⟩

/-- A server in the generic error state carrying a platform fault detail. -/
def errFaultServer : Server := ⟨"sid", "m", ServerStatusError, "disk fault detail", []⟩

theorem strStartsAt_refl (l : List Char) : strStartsAt l l = true := by
  induction l with
  | nil => rfl
  | cons c cs ih => simp [strStartsAt, ih]

theorem strFindRun_append (n xs ys : List Char) (h : strFindRun n ys = true) :
    strFindRun n (xs ++ ys) = true := by
  induction xs with
  | nil => simpa using h
  | cons c cs ih =>
    simp only [List.cons_append, strFindRun, Bool.or_eq_true]
    right
    exact ih

theorem strContains_append_right (a b : String) : strContains (a ++ b) b = true := by
  unfold strContains
  rw [String.data_append]
  apply strFindRun_append
  cases hb : b.data with
  | nil => simp [strFindRun, strStartsAt, hb]
  | cons c cs =>
    simp only [strFindRun, Bool.or_eq_true]
    left
    exact strStartsAt_refl _

/-- C3: the status poller's per-poll decision succeeds when the current
status is in the target set, or when the resource is gone and the target
set contains the deleted status; it continues when the current status is in
the pending set or the pending set is empty; any other status is a hard
failure whose message carries the fault detail when the status is the
generic error state; and for pending={building}, target={active} the
sequence [building, building, active] succeeds after exactly 3 polls while
[building, error] fails immediately (at poll 2) with the fault detail
included. -/
theorem C3_waitForStatus_decision :
    (∀ (pending target : List String) (s : Server),
        strSliceContains target s.status = true →
        waitForStatusStep pending target (.ok s) = .done)
    ∧ (∀ (pending target : List String) (e : GoErr),
        isNotFoundError e = true → strSliceContains target ServerStatusDeleted = true →
        waitForStatusStep pending target (.error e) = .done)
    ∧ (∀ (pending target : List String) (s : Server),
        strSliceContains target s.status = false →
        (pending.isEmpty || strSliceContains pending s.status) = true →
        waitForStatusStep pending target (.ok s) = .again)
    ∧ (∀ (pending target : List String) (s : Server),
        strSliceContains target s.status = false →
        pending.isEmpty = false → strSliceContains pending s.status = false →
        ∃ msg, waitForStatusStep pending target (.ok s) = .failed (.internal msg)
          ∧ (s.status = ServerStatusError → strContains msg s.fault = true))
    ∧ waitForStatusRun [ServerStatusBuild] [ServerStatusActive]
        [.ok bldServer, .ok bldServer, .ok actServer] = .success 3
    ∧ (∃ msg, waitForStatusRun [ServerStatusBuild] [ServerStatusActive]
        [.ok bldServer, .ok errFaultServer] = .failure 2 (.internal msg)
        ∧ strContains msg errFaultServer.fault = true) := by
  refine ⟨?_, ?_, ?_, ?_, ?_, ?_⟩
  · intro pending target s h
    simp [waitForStatusStep, h]
  · intro pending target e h1 h2
    simp [waitForStatusStep, h1, h2]
  · intro pending target s h1 h2
    simp [waitForStatusStep, h1, h2]
  · intro pending target s h1 h2 h3
    by_cases herr : s.status = ServerStatusError
    · refine ⟨"server [ID] reached unexpected status " ++ s.status ++ ", fault: " ++ s.fault,
        ?_, ?_⟩
      · rw [herr] at h1 h3
        simp [waitForStatusStep, herr, h1, h2, h3]
      · intro _
        exact strContains_append_right _ _
    · refine ⟨"server [ID] reached unexpected status " ++ s.status, ?_, ?_⟩
      · simp [waitForStatusStep, h1, h2, h3, herr]
      · intro h
        exact absurd h herr
  · rfl
  · exact ⟨"server [ID] reached unexpected status " ++ ServerStatusError ++ ", fault: " ++ errFaultServer.fault,
      rfl, strContains_append_right _ _⟩

/-- Witness for C3 at concrete inputs: each hypothesis of the decision
characterisation discharged at an explicit poll observation. -/
theorem C3_waitForStatus_decision_witness :
    waitForStatusStep [ServerStatusBuild] [ServerStatusActive] (.ok actServer) = .done
    ∧ waitForStatusStep [ServerStatusBuild] [ServerStatusDeleted]
        (.error (.cloudNotFound "gone")) = .done
    ∧ waitForStatusStep [ServerStatusBuild] [ServerStatusActive] (.ok bldServer) = .again := by
  refine ⟨?_, ?_, ?_⟩
  · exact C3_waitForStatus_decision.1 _ _ _ (by decide)
  · exact C3_waitForStatus_decision.2.1 _ _ _ (by decide) (by decide)
  · exact C3_waitForStatus_decision.2.2.1 _ _ _ (by decide) (by decide)

/-- A neutral environment in which every lookup misses and every mutation
succeeds; concrete scenarios override individual fields. -/
def baseEnv : Env where
  listServersByName := fun _ => .ok []
  listAllServers := .ok []
  getServer := fun _ => .error (.cloudNotFound "404")
  createWaitPolls := []
  deleteWaitPolls := []
  volumeWaitPolls := []
  listVolumesByName := fun _ => .ok []
  createVolumeRes := .error (.internal "unused")
  deleteVolumeRes := fun _ => none
  getSubnetRes := fun _ => none
  portIDFromName := fun _ => .error (.cloudNotFound "404")
  createPortRes := .error (.internal "unused")
  deletePortRes := fun _ => none
  groupIDFromName := fun _ => .error (.internal "unused")
  networkIDFromName := fun _ => .error (.internal "unused")
  imageIDFromName := fun _ => .error (.internal "unused")
  flavorIDFromName := fun _ => .error (.internal "unused")
  listPortsByDevice := fun _ => .ok []
  updatePortRes := fun _ => none
  createServerRes := .error (.internal "unused")
  bootFromVolumeRes := .error (.internal "unused")
  deleteServerRes := fun _ => none

/-- A configuration with derivable cluster/role tag keys and no optional
features; concrete scenarios override individual fields. -/
def baseCfg : Spec where
  region := "region-a"
  availabilityZone := "az-1"
  imageID := "img-1"
  imageName := ""
  flavorName := "m1"
  keyName := "kp"
  securityGroups := []
  tags := [("kubernetes.io-cluster-shoot--x", "1"), ("kubernetes.io-role-node", "1")]
  networkID := ""
  subnetID := none
  subnetIDs := []
  networks := []
  podNetworkCidr := "10.96.0.0/11"
  rootDiskSize := 0
  volumeType := none
  serverGroupID := none

/-- Metadata carrying both tag keys of `baseCfg`. -/
def taggedMeta : List (String × String) :=
  [("kubernetes.io-cluster-shoot--x", "1"), ("kubernetes.io-role-node", "1")]

/-- C9: with derivable tag keys and a successful listing, the lookup by
name fails with the multiple-found error whenever more than one listed
server matches the name and carries both derived tag keys, fails with the
not-found error when none matches, and returns a server exactly when the
matching list is that singleton. -/
theorem C9_getMachineByName_never_ambiguous :
    ∀ (env : Env) (cfg : Spec) (machineName : String) (ls : List Server),
      (deriveTagKeys cfg.tags).1 ≠ "" →
      (deriveTagKeys cfg.tags).2 ≠ "" →
      env.listServersByName machineName = .ok ls →
      ((ls.filter (fun s => s.name == machineName
            && hasKey s.metadata (deriveTagKeys cfg.tags).1
            && hasKey s.metadata (deriveTagKeys cfg.tags).2)).length > 1 →
          getMachineByName env cfg machineName
            = .error (.errMultipleFound ("failed to find server [Name=" ++ machineName ++ "]")))
      ∧ ((ls.filter (fun s => s.name == machineName
            && hasKey s.metadata (deriveTagKeys cfg.tags).1
            && hasKey s.metadata (deriveTagKeys cfg.tags).2)).length = 0 →
          getMachineByName env cfg machineName
            = .error (.errNotFound ("failed to find server [Name=" ++ machineName ++ "]")))
      ∧ (∀ s, ls.filter (fun s => s.name == machineName
            && hasKey s.metadata (deriveTagKeys cfg.tags).1
            && hasKey s.metadata (deriveTagKeys cfg.tags).2) = [s] →
          getMachineByName env cfg machineName = .ok s)
      ∧ (∀ s, getMachineByName env cfg machineName = .ok s →
          ls.filter (fun s => s.name == machineName
            && hasKey s.metadata (deriveTagKeys cfg.tags).1
            && hasKey s.metadata (deriveTagKeys cfg.tags).2) = [s]) := by
  intro env cfg machineName ls h1 h2 hls
  have e1 : ((deriveTagKeys cfg.tags).1 == "") = false := by
    simpa using h1
  have e2 : ((deriveTagKeys cfg.tags).2 == "") = false := by
    simpa using h2
  simp only [getMachineByName, e1, e2, Bool.or_self, Bool.false_eq_true, if_false, hls]
  refine ⟨?_, ?_, ?_, ?_⟩
  · intro hlen
    rw [if_pos hlen]
  · intro hlen
    rw [if_neg (by omega)]
    rw [List.length_eq_zero] at hlen
    rw [hlen]
  · intro s hsing
    rw [hsing]
    simp
  · intro s hok
    by_cases hlen : (ls.filter (fun s => s.name == machineName
        && hasKey s.metadata (deriveTagKeys cfg.tags).1
        && hasKey s.metadata (deriveTagKeys cfg.tags).2)).length > 1
    · rw [if_pos hlen] at hok
      exact absurd hok (by simp)
    · rw [if_neg hlen] at hok
      revert hok
      cases hm : ls.filter (fun s => s.name == machineName
          && hasKey s.metadata (deriveTagKeys cfg.tags).1
          && hasKey s.metadata (deriveTagKeys cfg.tags).2) with
      | nil => intro hok; exact absurd hok (by simp)
      | cons m rest =>
        intro hok
        have hm0 : m = s := by
          simpa using hok
        have hrest : rest = [] := by
          rw [hm] at hlen
          simp only [List.length_cons] at hlen
          have : rest.length = 0 := by omega
          simpa using this
        rw [hrest, hm0]

deriving instance DecidableEq for Except

/-- Two servers sharing the machine name and both tag keys. -/
def srvA : Server := ⟨"id-a", "m", ServerStatusActive, "", taggedMeta⟩

/-- A second server with the same name and tags as `srvA`. -/
def srvB : Server := ⟨"id-b", "m", ServerStatusActive, "", taggedMeta⟩

/-- An environment listing two instances that share name and tags. -/
def envC9 : Env := { baseEnv with listServersByName := fun _ => .ok [srvA, srvB] }

/-- Witness for C9: two listed instances sharing name and tag keys make
the lookup fail with the multiple-found error. -/
theorem C9_getMachineByName_never_ambiguous_witness :
    getMachineByName envC9 baseCfg "m"
      = .error (.errMultipleFound ("failed to find server [Name=" ++ "m" ++ "]")) :=
  (C9_getMachineByName_never_ambiguous envC9 baseCfg "m" [srvA, srvB]
    (by decide) (by decide) rfl).1 (by decide)

/-- Some configured tag key contains the cluster marker. -/
def clusterKeyDerivable (tags : List (String × String)) : Bool :=
  tags.any (fun kv => strContains kv.1 serverTagClusterMarker)

/-- Some configured tag key contains the role marker without also
containing the cluster marker (the `else if` of the scan skips keys that
already matched the cluster marker). -/
def roleKeyDerivable (tags : List (String × String)) : Bool :=
  tags.any (fun kv => strContains kv.1 serverTagRoleMarker
    && !(strContains kv.1 serverTagClusterMarker))

theorem strContains_empty_hay (m : String) (h : m.data ≠ []) :
    strContains "" m = false := by
  unfold strContains
  cases hm : m.data with
  | nil => exact absurd hm h
  | cons c cs => rfl

theorem key_with_marker_ne_empty (k m : String) (hm : m.data ≠ [])
    (h : strContains k m = true) : k ≠ "" := by
  intro hk
  rw [hk, strContains_empty_hay m hm] at h
  exact Bool.false_ne_true h

theorem tagScan_fst_aux (tags : List (String × String)) :
    ∀ acc : String × String,
      ((tags.foldl tagScanStep acc).1 = ""
        ↔ (clusterKeyDerivable tags = false ∧ acc.1 = "")) := by
  induction tags with
  | nil => intro acc; simp [clusterKeyDerivable]
  | cons kv rest ih =>
    intro acc
    rw [List.foldl_cons]
    by_cases hc : strContains kv.1 serverTagClusterMarker = true
    · have hk : kv.1 ≠ "" := key_with_marker_ne_empty kv.1 serverTagClusterMarker (by decide) hc
      simp only [tagScanStep, hc, if_true, ih, clusterKeyDerivable, List.any_cons]
      simp [hc, hk]
    · have hc' : strContains kv.1 serverTagClusterMarker = false := by
        simpa using hc
      by_cases hr : strContains kv.1 serverTagRoleMarker = true
      · simp only [tagScanStep, hc', hr, Bool.false_eq_true, if_false, if_true, ih,
          clusterKeyDerivable, List.any_cons]
        simp [hc']
      · have hr' : strContains kv.1 serverTagRoleMarker = false := by
          simpa using hr
        simp only [tagScanStep, hc', hr', Bool.false_eq_true, if_false, ih,
          clusterKeyDerivable, List.any_cons]
        simp [hc']

theorem tagScan_snd_aux (tags : List (String × String)) :
    ∀ acc : String × String,
      ((tags.foldl tagScanStep acc).2 = ""
        ↔ (roleKeyDerivable tags = false ∧ acc.2 = "")) := by
  induction tags with
  | nil => intro acc; simp [roleKeyDerivable]
  | cons kv rest ih =>
    intro acc
    rw [List.foldl_cons]
    by_cases hc : strContains kv.1 serverTagClusterMarker = true
    · simp only [tagScanStep, hc, if_true, ih, roleKeyDerivable, List.any_cons]
      simp [hc]
    · have hc' : strContains kv.1 serverTagClusterMarker = false := by
        simpa using hc
      by_cases hr : strContains kv.1 serverTagRoleMarker = true
      · have hk : kv.1 ≠ "" := key_with_marker_ne_empty kv.1 serverTagRoleMarker (by decide) hr
        simp only [tagScanStep, hc', hr, Bool.false_eq_true, if_false, if_true, ih,
          roleKeyDerivable, List.any_cons]
        simp [hc', hr, hk]
      · have hr' : strContains kv.1 serverTagRoleMarker = false := by
          simpa using hr
        simp only [tagScanStep, hc', hr', Bool.false_eq_true, if_false, ih,
          roleKeyDerivable, List.any_cons]
        simp [hc', hr']

theorem deriveTagKeys_fst_eq_empty (tags : List (String × String)) :
    ((deriveTagKeys tags).1 = "") ↔ clusterKeyDerivable tags = false := by
  unfold deriveTagKeys
  rw [tagScan_fst_aux]
  simp

theorem deriveTagKeys_snd_eq_empty (tags : List (String × String)) :
    ((deriveTagKeys tags).2 = "") ↔ roleKeyDerivable tags = false := by
  unfold deriveTagKeys
  rw [tagScan_snd_aux]
  simp

/-- C8 (amended): List fails outright whenever no configured tag key
contains the cluster marker, or no configured tag key contains the role
marker without also containing the cluster marker (the scan's `else if`
counts a key with both markers only as a cluster key); otherwise it
returns exactly the instances whose metadata carries both derived tag
keys, each mapped from its encoded provider ID to its name. -/
theorem C8_ListMachines_tag_gate (env : Env) (cfg : Spec) :
    ((clusterKeyDerivable cfg.tags = false ∨ roleKeyDerivable cfg.tags = false) →
      ListMachines env cfg
        = .error (.internal "operation can not proceed: cluster/role tags are missing"))
    ∧ (∀ ss, clusterKeyDerivable cfg.tags = true → roleKeyDerivable cfg.tags = true →
        env.listAllServers = .ok ss →
        ListMachines env cfg = .ok ((ss.filter (fun s =>
            hasKey s.metadata (deriveTagKeys cfg.tags).1
            && hasKey s.metadata (deriveTagKeys cfg.tags).2)).map
          (fun s => (encodeProviderID cfg.region s.id, s.name)))) := by
  constructor
  · intro h
    have hkey : ((deriveTagKeys cfg.tags).1 == "" || (deriveTagKeys cfg.tags).2 == "") = true := by
      rcases h with h | h
      · have hx := (deriveTagKeys_fst_eq_empty cfg.tags).mpr h
        simp [hx]
      · have hx := (deriveTagKeys_snd_eq_empty cfg.tags).mpr h
        simp [hx]
    simp [ListMachines, listServersF, hkey]
  · intro ss h1 h2 hss
    have k1 : (deriveTagKeys cfg.tags).1 ≠ "" := by
      intro hk
      rw [deriveTagKeys_fst_eq_empty] at hk
      rw [hk] at h1
      exact Bool.false_ne_true h1
    have k2 : (deriveTagKeys cfg.tags).2 ≠ "" := by
      intro hk
      rw [deriveTagKeys_snd_eq_empty] at hk
      rw [hk] at h2
      exact Bool.false_ne_true h2
    have e1 : ((deriveTagKeys cfg.tags).1 == "") = false := by simpa using k1
    have e2 : ((deriveTagKeys cfg.tags).2 == "") = false := by simpa using k2
    simp [ListMachines, listServersF, e1, e2, hss]

/-- A configuration whose single tag key contains both the cluster marker
and the role marker. -/
def cfgC8 : Spec :=
  { baseCfg with tags := [("kubernetes.io-cluster-kubernetes.io-role-x", "1")] }

/-- Counterexample for C8 as stated: the single tag key contains the
cluster marker and also the role marker — so both keys are derivable in
the claim's sense — yet List fails outright, because the scan's `else if`
never assigns a role key from a key that already matched the cluster
marker. -/
theorem C8_counterexample :
    cfgC8.tags.any (fun kv => strContains kv.1 serverTagClusterMarker) = true
    ∧ cfgC8.tags.any (fun kv => strContains kv.1 serverTagRoleMarker) = true
    ∧ ListMachines baseEnv cfgC8
        = .error (.internal "operation can not proceed: cluster/role tags are missing") :=
  ⟨by decide, by decide, by decide⟩

/-- An environment listing one fully tagged and one untagged server. -/
def envC8 : Env :=
  { baseEnv with listAllServers := .ok [srvA, ⟨"id-c", "other", ServerStatusActive, "", []⟩] }

/-- Witness for C8: the failure half at a role-free tag set, and the
success half listing exactly the fully tagged server. -/
theorem C8_ListMachines_tag_gate_witness :
    ListMachines baseEnv { baseCfg with tags := [("kubernetes.io-cluster-shoot--x", "1")] }
      = .error (.internal "operation can not proceed: cluster/role tags are missing")
    ∧ ListMachines envC8 baseCfg = .ok [(encodeProviderID "region-a" "id-a", "m")] :=
  ⟨(C8_ListMachines_tag_gate baseEnv _).1 (Or.inr (by decide)),
   ((C8_ListMachines_tag_gate envC8 baseCfg).2 _ (by decide) (by decide) rfl).trans (by decide)⟩

theorem findVolByName_snd (name : String) (vols : List Volume) :
    (findVolByName name vols).2 = none := by
  induction vols with
  | nil => rfl
  | cons v rest ih =>
    unfold findVolByName
    split
    · rfl
    · exact ih

theorem checkBootVolume_snd (env : Env) (name : String) :
    (checkBootVolume env name).2 = none := by
  unfold checkBootVolume
  cases env.listVolumesByName name with
  | error e => rfl
  | ok vols => exact findVolByName_snd name vols

theorem deleteMachineVolumeSection_eq (env : Env) (name : String) :
    deleteMachineVolumeSection env name = (none, []) := by
  unfold deleteMachineVolumeSection
  cases hcv : checkBootVolume env name with
  | mk v errChk =>
    have h2 : errChk = none := by
      have h := checkBootVolume_snd env name
      rw [hcv] at h
      exact h
    subst h2
    simp [isNotFoundErrorO]

theorem deleteMachinePhase1_trace (env : Env) (cfg : Spec) (machineName providerID : String) :
    ∀ a ∈ (deleteMachinePhase1 env cfg machineName providerID).2.1,
      ∃ i, a = .deleteServer i := by
  intro a ha
  unfold deleteMachinePhase1 at ha
  split at ha
  · split at ha
    · simp at ha
      exact ⟨_, ha⟩
    · split at ha
      · simp at ha
        exact ⟨_, ha⟩
      · simp at ha
        exact ⟨_, ha⟩
  · split at ha
    · simp at ha
    · simp at ha

theorem deletePortF_trace (env : Env) (machineName : String) :
    ∀ a ∈ (deletePortF env machineName).2,
      (∃ n, a = .lookupPort n) ∨ (∃ i, a = .deletePort i) := by
  intro a ha
  unfold deletePortF at ha
  split at ha
  · split at ha
    · simp at ha
      exact Or.inl ⟨_, ha⟩
    · simp at ha
      exact Or.inl ⟨_, ha⟩
  · split at ha
    · simp at ha
      rcases ha with ha | ha
      · exact Or.inl ⟨_, ha⟩
      · exact Or.inr ⟨_, ha⟩
    · simp at ha
      rcases ha with ha | ha
      · exact Or.inl ⟨_, ha⟩
      · exact Or.inr ⟨_, ha⟩

theorem DeleteMachine_trace_no_deleteVolume (env : Env) (cfg : Spec)
    (machineName providerID : String) :
    ∀ a ∈ (DeleteMachine env cfg machineName providerID).2, ∀ i c,
      a ≠ .deleteVolume i c := by
  intro a ha i c hac
  subst hac
  unfold DeleteMachine at ha
  rcases hp1 : deleteMachinePhase1 env cfg machineName providerID with ⟨r, tr, fall⟩
  rw [hp1] at ha
  have htr : ∀ b ∈ tr, ∃ j, b = Action.deleteServer j := by
    intro b hb
    have hh := deleteMachinePhase1_trace env cfg machineName providerID b
    rw [hp1] at hh
    exact hh hb
  cases fall with
  | false =>
    have ha2 : Action.deleteVolume i c ∈ tr := ha
    rcases htr _ ha2 with ⟨j, hj⟩
    exact Action.noConfusion hj
  | true =>
    have hvol : (if !(isEmptyString cfg.volumeType) then deleteMachineVolumeSection env machineName
        else (none, [])) = ((none : Option GoErr), ([] : List Action)) := by
      rw [deleteMachineVolumeSection_eq]
      exact ite_self _
    simp only [hvol] at ha
    by_cases hum : isUserManagedNetwork cfg = true
    · rw [hum] at ha
      rcases hdp : deletePortF env machineName with ⟨rp, tr3⟩
      rw [hdp] at ha
      simp only [if_true, List.append_nil, List.mem_append] at ha
      rcases ha with ha | ha
      · rcases htr _ ha with ⟨j, hj⟩
        exact Action.noConfusion hj
      · have hh := deletePortF_trace env machineName _ (by rw [hdp]; exact ha)
        rcases hh with ⟨n, hn⟩ | ⟨j, hj⟩
        · exact Action.noConfusion hn
        · exact Action.noConfusion hj
    · simp only [Bool.not_eq_true] at hum
      rw [hum] at ha
      simp only [Bool.false_eq_true, if_false, List.append_nil] at ha
      rcases htr _ ha with ⟨j, hj⟩
      exact Action.noConfusion hj

/-- C10: `checkBootVolume` always returns a `nil` error — a volume-list
error is discarded and reported as the zero volume with a `nil` error — so
its result never satisfies a not-found-error test; consequently
`DeleteMachine`'s volume cleanup never issues a volume deletion (its
not-found branch is unreachable) and `CreateMachine`'s rollback always
reaches its volume deletion when a volume type is configured and the inner
machine deletion succeeded (its error-checking and not-found-skip branches
are unreachable). -/
theorem C10_checkBootVolume_error_discarded :
    (∀ (env : Env) (name : String), (checkBootVolume env name).2 = none)
    ∧ (∀ (env : Env) (name : String),
        isNotFoundErrorO (checkBootVolume env name).2 = false)
    ∧ (∀ (env : Env) (cfg : Spec) (machineName providerID : String),
        ∀ a ∈ (DeleteMachine env cfg machineName providerID).2, ∀ i c,
          a ≠ .deleteVolume i c)
    ∧ (∀ (env : Env) (cfg : Spec) (machineName : String) (e : GoErr),
        isEmptyString cfg.volumeType = false →
        (DeleteMachine env cfg machineName "").1 = none →
        Action.deleteVolume (checkBootVolume env machineName).1.id true
          ∈ (createDeleteOnFail env cfg machineName e).2) := by
  refine ⟨checkBootVolume_snd, ?_, DeleteMachine_trace_no_deleteVolume, ?_⟩
  · intro env name
    rw [checkBootVolume_snd]
    rfl
  · intro env cfg machineName e hvt hdm
    rcases hcv : checkBootVolume env machineName with ⟨v, errChk⟩
    have hec : errChk = none := by
      have h := checkBootVolume_snd env machineName
      rw [hcv] at h
      exact h
    subst hec
    rcases hd : DeleteMachine env cfg machineName "" with ⟨r, dtr⟩
    have hr : r = none := by
      rw [hd] at hdm
      exact hdm
    subst hr
    simp only [createDeleteOnFail, hd, hvt, Bool.not_false, if_true, hcv]
    simp only [Option.isSome_none, Bool.false_and, Bool.false_eq_true, if_false,
      isNotFoundErrorO, Bool.not_false, if_true]
    cases env.deleteVolumeRes v.id with
    | some errDel => simp
    | none => simp

/-- A configuration requesting a typed boot volume. -/
def cfgVol : Spec := { baseCfg with volumeType := some "ssd" }

/-- An environment in which a volume named like the machine exists and the
instance is already gone. -/
def envVol : Env :=
  { baseEnv with listVolumesByName := fun _ => .ok [⟨"vol-1", "m", VolumeStatusAvailable⟩] }

/-- C1 (code evaluated at the failing input): the volume type is set and a
volume named after the machine exists, yet Delete succeeds while issuing no
volume deletion at all — the deletion is guarded by
`client.IsNotFoundError` of `checkBootVolume`'s always-`nil` error, so the
volume survives, contradicting the claimed cascading removal. -/
theorem C1_DeleteMachine_leaves_existing_volume :
    (checkBootVolume envVol "m").1 = ⟨"vol-1", "m", VolumeStatusAvailable⟩
    ∧ isEmptyString cfgVol.volumeType = false
    ∧ DeleteMachine envVol cfgVol "m" "" = (none, []) :=
  ⟨rfl, rfl, by decide⟩

/-- Witness for C10 at concrete inputs: the rollback deletes the listed
volume, and Delete's trace never contains that deletion. -/
theorem C10_checkBootVolume_error_discarded_witness :
    Action.deleteVolume "vol-1" true
        ∈ (createDeleteOnFail envVol cfgVol "m" (.internal "boom")).2
    ∧ Action.deleteVolume "vol-1" true ∉ (DeleteMachine envVol cfgVol "m" "").2 :=
  ⟨C10_checkBootVolume_error_discarded.2.2.2 envVol cfgVol "m" (.internal "boom")
      rfl (by decide),
   fun hmem => C10_checkBootVolume_error_discarded.2.2.1 envVol cfgVol "m" ""
      _ hmem "vol-1" true rfl⟩

theorem deleteMachinePhase1_notFound_byName (env : Env) (cfg : Spec)
    (machineName : String) (e : GoErr)
    (hname : getMachineByName env cfg machineName = .error e)
    (hnf : errorsIsNotFound e = true) :
    deleteMachinePhase1 env cfg machineName "" = (none, [], true) := by
  unfold deleteMachinePhase1 deleteMachineLookup
  have hempty : isEmptyString (some "") = true := rfl
  rw [hempty]
  simp only [Bool.not_true, Bool.false_eq_true, if_false, hname, hnf, if_true]

theorem deleteMachinePhase1_notFound_byID (env : Env) (cfg : Spec)
    (machineName providerID : String) (e : GoErr)
    (hpid : isEmptyString (some providerID) = false)
    (hid : getMachineByID env cfg (decodeProviderID providerID) = .error e)
    (hnf : errorsIsNotFound e = true) :
    deleteMachinePhase1 env cfg machineName providerID = (none, [], true) := by
  unfold deleteMachinePhase1 deleteMachineLookup
  rw [hpid]
  simp only [Bool.not_false, if_true, hid, hnf]

theorem DeleteMachine_of_phase1_fallthrough (env : Env) (cfg : Spec)
    (machineName providerID : String)
    (hp1 : deleteMachinePhase1 env cfg machineName providerID = (none, [], true)) :
    DeleteMachine env cfg machineName providerID
      = (if isUserManagedNetwork cfg then deletePortF env machineName else (none, [])) := by
  unfold DeleteMachine
  rw [hp1]
  have hvol : (if !(isEmptyString cfg.volumeType) then deleteMachineVolumeSection env machineName
      else (none, [])) = ((none : Option GoErr), ([] : List Action)) := by
    rw [deleteMachineVolumeSection_eq]
    exact ite_self _
  simp only [hvol]
  by_cases hum : isUserManagedNetwork cfg = true
  · rw [hum]
    rcases hdp : deletePortF env machineName with ⟨rp, tr3⟩
    simp
  · simp only [Bool.not_eq_true] at hum
    rw [hum]
    simp

/-- C6: a not-found target — resolved by decoded provider ID or by name
plus cluster/role tags — is success, and Delete still proceeds to the
auxiliary cleanup (when the network is user-managed its whole remaining
behaviour is the port cleanup, whose own not-found is treated as already
deleted); consequently Delete returns no error whenever the lookup misses
and the port cleanup is benign, so a second identical Delete succeeds as
well. -/
theorem C6_DeleteMachine_idempotent :
    (∀ (env : Env) (cfg : Spec) (machineName : String) (e : GoErr),
        getMachineByName env cfg machineName = .error e → errorsIsNotFound e = true →
        DeleteMachine env cfg machineName ""
          = (if isUserManagedNetwork cfg then deletePortF env machineName else (none, [])))
    ∧ (∀ (env : Env) (cfg : Spec) (machineName providerID : String) (e : GoErr),
        isEmptyString (some providerID) = false →
        getMachineByID env cfg (decodeProviderID providerID) = .error e →
        errorsIsNotFound e = true →
        DeleteMachine env cfg machineName providerID
          = (if isUserManagedNetwork cfg then deletePortF env machineName else (none, [])))
    ∧ (∀ (env : Env) (machineName msg : String),
        env.portIDFromName machineName = .error (.cloudNotFound msg) →
        deletePortF env machineName = (none, [.lookupPort machineName]))
    ∧ (∀ (env : Env) (cfg : Spec) (machineName : String) (e : GoErr),
        getMachineByName env cfg machineName = .error e → errorsIsNotFound e = true →
        (isUserManagedNetwork cfg = true → (deletePortF env machineName).1 = none) →
        (DeleteMachine env cfg machineName "").1 = none) := by
  refine ⟨?_, ?_, ?_, ?_⟩
  · intro env cfg machineName e hname hnf
    exact DeleteMachine_of_phase1_fallthrough env cfg machineName ""
      (deleteMachinePhase1_notFound_byName env cfg machineName e hname hnf)
  · intro env cfg machineName providerID e hpid hid hnf
    exact DeleteMachine_of_phase1_fallthrough env cfg machineName providerID
      (deleteMachinePhase1_notFound_byID env cfg machineName providerID e hpid hid hnf)
  · intro env machineName msg hport
    unfold deletePortF
    rw [hport]
    rfl
  · intro env cfg machineName e hname hnf hbenign
    rw [DeleteMachine_of_phase1_fallthrough env cfg machineName ""
      (deleteMachinePhase1_notFound_byName env cfg machineName e hname hnf)]
    by_cases hum : isUserManagedNetwork cfg = true
    · rw [if_pos hum]
      exact hbenign hum
    · rw [if_neg hum]

/-- Witness for C6: in an environment where both the instance and the port
are absent and the network is user-managed, Delete returns success with
only the port lookup in its trace. -/
theorem C6_DeleteMachine_idempotent_witness :
    DeleteMachine baseEnv
        { baseCfg with networkID := "net-1", subnetIDs := ["sub-1"] } "m" ""
      = (none, [.lookupPort "m"]) := by
  have h1 := C6_DeleteMachine_idempotent.1 baseEnv
    { baseCfg with networkID := "net-1", subnetIDs := ["sub-1"] } "m"
    (.errNotFound ("failed to find server [Name=" ++ "m" ++ "]")) (by decide) rfl
  have h2 := C6_DeleteMachine_idempotent.2.2.1 baseEnv "m" "404" rfl
  rw [h1, if_pos (by decide), h2]

theorem splitCommaChars_ne_nil (l : List Char) : splitCommaChars l ≠ [] := by
  induction l with
  | nil => simp [splitCommaChars]
  | cons c rest ih =>
    unfold splitCommaChars
    by_cases hc : c = ','
    · simp [hc]
    · simp only [hc, if_false]
      cases hs : splitCommaChars rest with
      | nil => simp
      | cons g gs => simp

theorem goSplitComma_ne_nil (s : String) : goSplitComma s ≠ [] := by
  unfold goSplitComma
  intro h
  rw [List.map_eq_nil_iff] at h
  exact splitCommaChars_ne_nil s.data h

theorem patchPortsLoop_success (env : Env) (ids cs : List String) (l : List Port)
    (h : (patchPortsLoop env ids cs l).1 = none) :
    (patchPortsLoop env ids cs l).2
      = (l.filter (fun p => ids.contains p.networkID && !(portHasSomePodCidr cs p))).map
          (fun p => Action.updatePort p.id cs) := by
  induction l with
  | nil => rfl
  | cons p rest ih =>
    by_cases hc : ids.contains p.networkID = true
    · by_cases hs : portHasSomePodCidr cs p = true
      · unfold patchPortsLoop at h ⊢
        rw [if_pos hc, if_pos hs] at h ⊢
        rw [ih h]
        simp [List.filter_cons, hc, hs]
      · have hs' : portHasSomePodCidr cs p = false := by simpa using hs
        unfold patchPortsLoop at h ⊢
        rw [if_pos hc, hs'] at h ⊢
        simp only [Bool.false_eq_true, if_false] at h ⊢
        cases hu : env.updatePortRes p.id with
        | some e =>
          rw [hu] at h
          simp at h
        | none =>
          rw [hu] at h
          simp only at h ⊢
          rw [ih h]
          have hcm : p.networkID ∈ ids := by simpa using hc
          simp [List.filter_cons, hcm, hs']
    · have hc' : ids.contains p.networkID = false := by simpa using hc
      have hcm : p.networkID ∉ ids := by simpa using hc'
      unfold patchPortsLoop at h ⊢
      rw [hc'] at h ⊢
      simp only [Bool.false_eq_true, if_false] at h ⊢
      rw [ih h]
      simp [List.filter_cons, hcm]

/-- C2 (amended): in the pod-network patch step, for every attached port on
a pod-carrying network the allow-list is replaced with the full configured
pod-CIDR list exactly when the port's allow-list matches none of the
configured pod CIDRs; a port whose allow-list already matches at least one
configured CIDR — in particular one containing every configured CIDR — is
skipped with no update call. -/
theorem C2_patch_pod_network (env : Env) (cfg : Spec) (serverID : String) :
    ∀ (ps : List Port) (ids : List String) (tr : List Action),
      env.listPortsByDevice serverID = .ok ps → ps ≠ [] →
      resolvePodNetworkIDs env cfg = (.ok ids, tr) →
      (patchServerPortsForPodNetwork env cfg serverID).1 = none →
      ((patchServerPortsForPodNetwork env cfg serverID).2
        = tr ++ (ps.filter (fun p => ids.contains p.networkID
            && !(portHasSomePodCidr (goSplitComma cfg.podNetworkCidr) p))).map
              (fun p => Action.updatePort p.id (goSplitComma cfg.podNetworkCidr)))
      ∧ (∀ p ∈ ps, ids.contains p.networkID = true →
          (∀ c ∈ goSplitComma cfg.podNetworkCidr,
            p.allowedAddressPairs.any (fun pair => pair.ipAddress == c) = true) →
          portHasSomePodCidr (goSplitComma cfg.podNetworkCidr) p = true) := by
  intro ps ids tr hps hne hres hok
  have hempty : ps.isEmpty = false := by
    cases ps with
    | nil => exact absurd rfl hne
    | cons a l => rfl
  constructor
  · unfold patchServerPortsForPodNetwork at hok ⊢
    rw [hps] at hok ⊢
    simp only [hempty, Bool.false_eq_true, if_false, hres] at hok ⊢
    rcases hloop : patchPortsLoop env ids (goSplitComma cfg.podNetworkCidr) ps with ⟨r, tr2⟩
    rw [hloop] at hok
    simp only at hok ⊢
    subst hok
    have hmain := patchPortsLoop_success env ids (goSplitComma cfg.podNetworkCidr) ps
      (by rw [hloop])
    rw [hloop] at hmain
    simp only at hmain
    rw [hmain]
  · intro p _hp _hc hall
    rcases hcs : goSplitComma cfg.podNetworkCidr with _ | ⟨c0, crest⟩
    · exact absurd hcs (goSplitComma_ne_nil cfg.podNetworkCidr)
    · have hc0 : p.allowedAddressPairs.any (fun pair => pair.ipAddress == c0) = true := by
        apply hall
        rw [hcs]
        exact List.mem_cons_self c0 crest
      rw [List.any_eq_true] at hc0
      rcases hc0 with ⟨pair, hpair, hmatch⟩
      unfold portHasSomePodCidr
      rw [List.any_eq_true]
      refine ⟨pair, hpair, ?_⟩
      rw [List.any_eq_true]
      exact ⟨c0, List.mem_cons_self c0 crest, hmatch⟩

/-- A configuration with two pod CIDRs and an explicit network ID (which
makes that network the pod network). -/
def cfgTwoCidrs : Spec :=
  { baseCfg with networkID := "net-1", podNetworkCidr := "10.0.0.0/16,10.1.0.0/16" }

/-- A port on the pod network allowing only the first configured CIDR. -/
def portOneCidr : Port := ⟨"port-1", "net-1", [⟨"10.0.0.0/16"⟩]⟩

/-- An environment attaching exactly `portOneCidr` to the server. -/
def envPatch : Env := { baseEnv with listPortsByDevice := fun _ => .ok [portOneCidr] }

/-- Counterexample for C2 as stated: the port is missing the configured
pod CIDR 10.1.0.0/16, yet the patch step issues no update call (empty
trace) because its guard is satisfied by any single matching CIDR. -/
theorem C2_counterexample :
    portOneCidr.allowedAddressPairs.any
        (fun pair => pair.ipAddress == "10.1.0.0/16") = false
    ∧ "10.1.0.0/16" ∈ goSplitComma cfgTwoCidrs.podNetworkCidr
    ∧ portOneCidr.networkID = cfgTwoCidrs.networkID
    ∧ patchServerPortsForPodNetwork envPatch cfgTwoCidrs "srv-1" = (none, []) :=
  ⟨by decide, by decide, rfl, by decide⟩

/-- A port on the pod network allowing none of the configured CIDRs. -/
def portNoCidr : Port := ⟨"port-2", "net-1", [⟨"192.168.0.1"⟩]⟩

/-- An environment attaching one partially matching and one non-matching
port. -/
def envPatchTwo : Env :=
  { baseEnv with listPortsByDevice := fun _ => .ok [portOneCidr, portNoCidr] }

/-- Witness for C2 at concrete inputs: the port matching one CIDR is
skipped, the port matching none is rewritten with the full configured
list. -/
theorem C2_patch_pod_network_witness :
    (patchServerPortsForPodNetwork envPatchTwo cfgTwoCidrs "srv-1").2
      = [Action.updatePort "port-2" ["10.0.0.0/16", "10.1.0.0/16"]] :=
  ((C2_patch_pod_network envPatchTwo cfgTwoCidrs "srv-1"
      [portOneCidr, portNoCidr] ["net-1"] []
      rfl (by decide) rfl (by decide)).1).trans (by decide)

/-- Resolution of a single named-network entry (the body of the loop at
executor.go:172-186): the explicit ID wins, else a name→ID lookup. -/
def resolveOneNetworkID (env : Env) (n : NetworkSpec) : Except GoErr String :=
  if isEmptyString (some n.id) then env.networkIDFromName n.name else .ok n.id

theorem verifySubnets_all_ok (env : Env) (l : List String)
    (h : ∀ s ∈ l, env.getSubnetRes s = none) :
    verifySubnets env l = (none, l.map .getSubnet) := by
  induction l with
  | nil => rfl
  | cons s rest ih =>
    have hs := h s (List.mem_cons_self s rest)
    unfold verifySubnets
    rw [hs]
    rw [ih (fun x hx => h x (List.mem_cons_of_mem s hx))]
    rfl

theorem verifySubnets_fst_none (env : Env) (l : List String)
    (h : (verifySubnets env l).1 = none) :
    ∀ s ∈ l, env.getSubnetRes s = none := by
  induction l with
  | nil => intro s hs; simp at hs
  | cons s rest ih =>
    intro x hx
    unfold verifySubnets at h
    cases hs : env.getSubnetRes s with
    | some e =>
      rw [hs] at h
      simp at h
    | none =>
      rw [hs] at h
      simp only at h
      rcases List.mem_cons.mp hx with hx | hx
      · rw [hx]; exact hs
      · exact ih h x hx

theorem verifySubnets_trace (env : Env) (l : List String) :
    ∀ a ∈ (verifySubnets env l).2, ∃ s, a = .getSubnet s := by
  induction l with
  | nil => intro a ha; simp [verifySubnets] at ha
  | cons s rest ih =>
    intro a ha
    unfold verifySubnets at ha
    cases hs : env.getSubnetRes s with
    | some e =>
      rw [hs] at ha
      simp at ha
      exact ⟨s, ha⟩
    | none =>
      rw [hs] at ha
      simp only [List.mem_cons] at ha
      rcases ha with ha | ha
      · exact ⟨s, ha⟩
      · exact ih a ha

theorem getOrCreatePort_trace_head (env : Env) (cfg : Spec) (machineName : String) :
    ∃ rest, (getOrCreatePort env cfg machineName).2 = .lookupPort machineName :: rest := by
  unfold getOrCreatePort
  split
  · exact ⟨[], rfl⟩
  · split
    · exact ⟨[], rfl⟩
    · rcases hg : resolveGroupIDs env cfg.securityGroups with ⟨gr, gtr⟩
      cases gr with
      | error e => exact ⟨gtr, rfl⟩
      | ok gids =>
        cases env.createPortRes with
        | error e3 => exact ⟨_, rfl⟩
        | ok port => exact ⟨_, rfl⟩

theorem resolveNetworksLoop_all_ok (env : Env) (l : List NetworkSpec)
    (pick : NetworkSpec → String)
    (h : ∀ n ∈ l, resolveOneNetworkID env n = .ok (pick n)) :
    (resolveNetworksLoop env l).1 = .ok (l.map (fun n => ⟨pick n, ""⟩)) := by
  induction l with
  | nil => rfl
  | cons n rest ih =>
    have hn := h n (List.mem_cons_self n rest)
    have hrest := ih (fun x hx => h x (List.mem_cons_of_mem n hx))
    unfold resolveOneNetworkID at hn
    unfold resolveNetworksLoop
    by_cases hid : isEmptyString (some n.id) = true
    · rw [if_pos hid] at hn
      rw [if_pos hid, hn]
      cases hrec : resolveNetworksLoop env rest with
      | mk rr rtr =>
        rw [hrec] at hrest
        cases rr with
        | error e => simp at hrest
        | ok nws =>
          have hws : nws = rest.map (fun n => ⟨pick n, ""⟩) := by simpa using hrest
          subst hws
          simp
    · rw [if_neg hid] at hn
      have hpick : n.id = pick n := by injection hn
      rw [if_neg hid]
      cases hrec : resolveNetworksLoop env rest with
      | mk rr rtr =>
        rw [hrec] at hrest
        cases rr with
        | error e => simp at hrest
        | ok nws =>
          have hws : nws = rest.map (fun n => ⟨pick n, ""⟩) := by simpa using hrest
          subst hws
          simp [hpick]

/-- C7: network resolution priority.  (a) With an explicit network ID and
at least one configured subnet, a failing subnet check makes resolution
fail having issued only subnet verifications (no port operation, no
attach); when every subnet verifies and the port get-or-create succeeds,
the result is the single attachment referencing that port (no bare-network
entry) and the port lookup was attempted.  (b) With an explicit network ID
and no subnets the result is the single bare-network attachment with no
outbound call.  (c) With no explicit network ID, every entry of the
named-network list is resolved independently in list order — the explicit
ID when present, else the name→ID lookup. -/
theorem C7_resolveServerNetworks_priority :
    ∀ (env : Env) (cfg : Spec) (machineName : String),
      (isUserManagedNetwork cfg = true →
        ((∃ s ∈ getSubnetIDs cfg, env.getSubnetRes s ≠ none) →
          (∃ e, (resolveServerNetworks env cfg machineName).1 = .error e)
          ∧ ∀ a ∈ (resolveServerNetworks env cfg machineName).2, ∃ s, a = .getSubnet s)
        ∧ ((∀ s ∈ getSubnetIDs cfg, env.getSubnetRes s = none) →
          ∀ portID ptr, getOrCreatePort env cfg machineName = (.ok portID, ptr) →
            resolveServerNetworks env cfg machineName
              = (.ok [⟨cfg.networkID, portID⟩], (getSubnetIDs cfg).map .getSubnet ++ ptr)
            ∧ .lookupPort machineName ∈ (resolveServerNetworks env cfg machineName).2))
      ∧ (isUserManagedNetwork cfg = false → isEmptyString (some cfg.networkID) = false →
          resolveServerNetworks env cfg machineName = (.ok [⟨cfg.networkID, ""⟩], []))
      ∧ (isEmptyString (some cfg.networkID) = true →
          ∀ pick : NetworkSpec → String,
            (∀ n ∈ cfg.networks, resolveOneNetworkID env n = .ok (pick n)) →
            (resolveServerNetworks env cfg machineName).1
              = .ok (cfg.networks.map (fun n => ⟨pick n, ""⟩))) := by
  intro env cfg machineName
  refine ⟨?_, ?_, ?_⟩
  · intro hum
    constructor
    · intro hbad
      have h1 : (verifySubnets env (getSubnetIDs cfg)).1 ≠ none := by
        intro hnone
        rcases hbad with ⟨s, hs, hbad⟩
        exact hbad (verifySubnets_fst_none env (getSubnetIDs cfg) hnone s hs)
      unfold resolveServerNetworks
      rw [hum, if_pos rfl]
      cases hv : verifySubnets env (getSubnetIDs cfg) with
      | mk vr vtr =>
        cases vr with
        | none => rw [hv] at h1; exact absurd rfl h1
        | some e =>
          constructor
          · exact ⟨e, rfl⟩
          · intro a ha
            have := verifySubnets_trace env (getSubnetIDs cfg) a
            rw [hv] at this
            exact this ha
    · intro hok portID ptr hport
      have hv : verifySubnets env (getSubnetIDs cfg)
          = (none, (getSubnetIDs cfg).map .getSubnet) :=
        verifySubnets_all_ok env (getSubnetIDs cfg) hok
      have hres : resolveServerNetworks env cfg machineName
          = (.ok [⟨cfg.networkID, portID⟩], (getSubnetIDs cfg).map .getSubnet ++ ptr) := by
        unfold resolveServerNetworks
        rw [hum, if_pos rfl, hv, hport]
      refine ⟨hres, ?_⟩
      rw [hres]
      rcases getOrCreatePort_trace_head env cfg machineName with ⟨rest, hhead⟩
      rw [hport] at hhead
      simp only at hhead
      rw [hhead]
      simp
  · intro hum hnid
    unfold resolveServerNetworks
    rw [hum]
    simp only [Bool.false_eq_true, if_false, hnid, Bool.not_false, if_true]
  · intro hnid pick hall
    have hum : isUserManagedNetwork cfg = false := by
      unfold isUserManagedNetwork
      rw [hnid]
      rfl
    unfold resolveServerNetworks
    rw [hum]
    simp only [Bool.false_eq_true, if_false, hnid, Bool.not_true, if_false]
    exact resolveNetworksLoop_all_ok env cfg.networks pick hall

/-- An environment resolving the machine port and the network name
`alpha`. -/
def envC7 : Env :=
  { baseEnv with
    portIDFromName := fun _ => .ok "port-9"
    networkIDFromName := fun nm => if nm == "alpha" then .ok "nid-1" else .error (.internal "no") }

/-- A user-managed network config: explicit network ID and one subnet. -/
def cfgUM : Spec := { baseCfg with networkID := "net-1", subnetIDs := ["sub-1"] }

/-- A direct-attach config: explicit network ID, no subnets. -/
def cfgNet : Spec := { baseCfg with networkID := "net-1" }

/-- A named-network config with one name-resolved and one explicit entry. -/
def cfgNamed : Spec :=
  { baseCfg with networks := [⟨"", "alpha", false⟩, ⟨"nid-2", "beta", true⟩] }

/-- Witness for C7 at concrete inputs: port-reference attach with the
subnet verified, bare attach with empty trace, and in-order named-network
resolution. -/
theorem C7_resolveServerNetworks_priority_witness :
    resolveServerNetworks envC7 cfgUM "m"
        = (.ok [⟨"net-1", "port-9"⟩], [.getSubnet "sub-1", .lookupPort "m"])
    ∧ resolveServerNetworks envC7 cfgNet "m" = (.ok [⟨"net-1", ""⟩], [])
    ∧ (resolveServerNetworks envC7 cfgNamed "m").1
        = .ok [⟨"nid-1", ""⟩, ⟨"nid-2", ""⟩] := by
  refine ⟨?_, ?_, ?_⟩
  · have h := ((C7_resolveServerNetworks_priority envC7 cfgUM "m").1 (by decide)).2
      (by intro s hs; rfl) "port-9" [.lookupPort "m"] rfl
    exact h.1.trans (by decide)
  · exact (C7_resolveServerNetworks_priority envC7 cfgNet "m").2.1 (by decide) (by decide)
  · have h := (C7_resolveServerNetworks_priority envC7 cfgNamed "m").2.2 (by decide)
      (fun n => if n.name == "alpha" then "nid-1" else "nid-2") (by decide)
    exact h.trans (by decide)

theorem resolvePodNetworkIDsLoop_trace (env : Env) (l : List NetworkSpec) :
    ∀ a ∈ (resolvePodNetworkIDsLoop env l).2, ∃ nm, a = .lookupNetwork nm := by
  induction l with
  | nil => intro a ha; simp [resolvePodNetworkIDsLoop] at ha
  | cons n rest ih =>
    intro a ha
    unfold resolvePodNetworkIDsLoop at ha
    by_cases hid : isEmptyString (some n.id) = true
    · rw [if_pos hid] at ha
      cases hlook : env.networkIDFromName n.name with
      | error e =>
        rw [hlook] at ha
        simp only at ha
        simp at ha
        exact ⟨n.name, ha⟩
      | ok rid =>
        rw [hlook] at ha
        simp only at ha
        rcases hrec : resolvePodNetworkIDsLoop env rest with ⟨rr, rtr⟩
        rw [hrec] at ha
        cases rr with
        | error e =>
          simp only [List.singleton_append, List.mem_cons] at ha
          rcases ha with ha | ha
          · exact ⟨n.name, ha⟩
          · exact ih a (by rw [hrec]; exact ha)
        | ok ids =>
          simp only [List.singleton_append, List.mem_cons] at ha
          rcases ha with ha | ha
          · exact ⟨n.name, ha⟩
          · exact ih a (by rw [hrec]; exact ha)
    · rw [if_neg hid] at ha
      simp only at ha
      rcases hrec : resolvePodNetworkIDsLoop env rest with ⟨rr, rtr⟩
      rw [hrec] at ha
      cases rr with
      | error e =>
        simp only [List.nil_append] at ha
        exact ih a (by rw [hrec]; exact ha)
      | ok ids =>
        simp only [List.nil_append] at ha
        exact ih a (by rw [hrec]; exact ha)

theorem resolvePodNetworkIDs_trace (env : Env) (cfg : Spec) :
    ∀ a ∈ (resolvePodNetworkIDs env cfg).2, ∃ nm, a = .lookupNetwork nm := by
  intro a ha
  unfold resolvePodNetworkIDs at ha
  by_cases hnid : isEmptyString (some cfg.networkID) = true
  · rw [hnid] at ha
    simp only [Bool.not_true, Bool.false_eq_true, if_false] at ha
    exact resolvePodNetworkIDsLoop_trace env cfg.networks a ha
  · have hnid' : isEmptyString (some cfg.networkID) = false := by simpa using hnid
    rw [hnid'] at ha
    simp at ha

theorem patchPortsLoop_trace (env : Env) (ids cs : List String) (l : List Port) :
    ∀ a ∈ (patchPortsLoop env ids cs l).2, ∃ i, a = .updatePort i cs := by
  induction l with
  | nil => intro a ha; simp [patchPortsLoop] at ha
  | cons p rest ih =>
    intro a ha
    unfold patchPortsLoop at ha
    by_cases hc : ids.contains p.networkID = true
    · rw [if_pos hc] at ha
      by_cases hs : portHasSomePodCidr cs p = true
      · rw [if_pos hs] at ha
        exact ih a ha
      · rw [if_neg hs] at ha
        cases hu : env.updatePortRes p.id with
        | some e =>
          rw [hu] at ha
          simp at ha
          exact ⟨p.id, ha⟩
        | none =>
          rw [hu] at ha
          rcases hrec : patchPortsLoop env ids cs rest with ⟨r, tr⟩
          rw [hrec] at ha
          simp only [List.mem_cons] at ha
          rcases ha with ha | ha
          · exact ⟨p.id, ha⟩
          · exact ih a (by rw [hrec]; exact ha)
    · rw [if_neg hc] at ha
      exact ih a ha

theorem patchServerPorts_trace (env : Env) (cfg : Spec) (sid : String) :
    ∀ a ∈ (patchServerPortsForPodNetwork env cfg sid).2,
      (∃ i ps, a = .updatePort i ps) ∨ (∃ nm, a = .lookupNetwork nm) := by
  intro a ha
  unfold patchServerPortsForPodNetwork at ha
  cases hlp : env.listPortsByDevice sid with
  | error e =>
    rw [hlp] at ha
    simp at ha
  | ok allPorts =>
    rw [hlp] at ha
    simp only at ha
    by_cases hemp : allPorts.isEmpty = true
    · rw [if_pos hemp] at ha
      simp at ha
    · rw [if_neg hemp] at ha
      rcases hres : resolvePodNetworkIDs env cfg with ⟨rr, rtr⟩
      rw [hres] at ha
      cases rr with
      | error e =>
        simp only at ha
        rcases resolvePodNetworkIDs_trace env cfg a (by rw [hres]; exact ha) with ⟨nm, hnm⟩
        exact Or.inr ⟨nm, hnm⟩
      | ok podIDs =>
        simp only at ha
        rcases hloop : patchPortsLoop env podIDs (goSplitComma cfg.podNetworkCidr) allPorts
          with ⟨lr, ltr⟩
        rw [hloop] at ha
        simp only [List.mem_append] at ha
        rcases ha with ha | ha
        · rcases resolvePodNetworkIDs_trace env cfg a (by rw [hres]; exact ha) with ⟨nm, hnm⟩
          exact Or.inr ⟨nm, hnm⟩
        · rcases patchPortsLoop_trace env podIDs (goSplitComma cfg.podNetworkCidr) allPorts a
            (by rw [hloop]; exact ha) with ⟨i, hi⟩
          exact Or.inl ⟨i, goSplitComma cfg.podNetworkCidr, hi⟩

/-- Actions that provision or resolve resources for a new instance; the
reuse path of Create may only patch ports (update calls and the network
lookups they need). -/
def isProvisioningAction : Action → Bool
  | .updatePort _ _ => false
  | .lookupNetwork _ => false
  | _ => true

/-- C5: when the tag-filtered lookup finds an existing instance, Create
issues no provisioning call at all — no instance creation, no network
resolution, no deployment — and returns the provider ID encoding the
configured region and the existing instance's ID; hence a second Create
after a successful first returns the first call's provider ID. -/
theorem C5_CreateMachine_idempotent :
    ∀ (env : Env) (cfg : Spec) (machineName pid : String) (server : Server) (n : Nat),
      getMachineByName env cfg machineName = .ok server →
      waitForStatusRun [ServerStatusBuild] [ServerStatusActive] env.createWaitPolls
        = .success n →
      (patchServerPortsForPodNetwork env cfg server.id).1 = none →
      pid = encodeProviderID cfg.region server.id →
      (CreateMachine env cfg machineName).1 = .ok pid
      ∧ ∀ a ∈ (CreateMachine env cfg machineName).2, isProvisioningAction a = false := by
  intro env cfg machineName pid server n hname hwait hpatch hpid
  subst hpid
  have hrun : waitOutcome (waitForStatusRun [ServerStatusBuild] [ServerStatusActive]
      env.createWaitPolls) = none := by
    rw [hwait]
    rfl
  have hcm : CreateMachine env cfg machineName
      = (.ok (encodeProviderID cfg.region server.id),
         (patchServerPortsForPodNetwork env cfg server.id).2) := by
    unfold CreateMachine
    rw [hname]
    simp only
    rw [hrun]
    rcases hp : patchServerPortsForPodNetwork env cfg server.id with ⟨pr, ptr⟩
    have hpr : pr = none := by
      rw [hp] at hpatch
      exact hpatch
    subst hpr
    simp
  constructor
  · rw [hcm]
  · intro a ha
    rw [hcm] at ha
    simp only at ha
    rcases patchServerPorts_trace env cfg server.id a ha with ⟨i, ps, hi⟩ | ⟨nm, hnm⟩
    · rw [hi]
      rfl
    · rw [hnm]
      rfl

/-- An environment in which the machine already exists as an active tagged
instance and carries one port needing no patch. -/
def envC5 : Env :=
  { baseEnv with
    listServersByName := fun _ => .ok [srvA]
    createWaitPolls := [.ok srvA]
    listPortsByDevice := fun _ => .ok [⟨"port-1", "net-0", []⟩] }

/-- Witness for C5: an existing instance is reused and the provider ID of
that instance is returned with no provisioning action in the trace. -/
theorem C5_CreateMachine_idempotent_witness :
    (CreateMachine envC5 baseCfg "m").1 = .ok "openstack:///region-a/id-a"
    ∧ (CreateMachine envC5 baseCfg "m").2.all (fun a => !(isProvisioningAction a)) = true :=
  ⟨(C5_CreateMachine_idempotent envC5 baseCfg "m" "openstack:///region-a/id-a" srvA 1
      rfl (by decide) (by decide) (by decide)).1,
   by decide⟩

theorem strStartsAt_self_append (n ys : List Char) : strStartsAt n (n ++ ys) = true := by
  induction n with
  | nil => rfl
  | cons c cs ih => simp [strStartsAt, ih]

theorem strFindRun_self_append (n ys : List Char) : strFindRun n (n ++ ys) = true := by
  cases n with
  | nil => cases ys <;> rfl
  | cons c cs =>
    simp only [List.cons_append, strFindRun, Bool.or_eq_true]
    left
    exact strStartsAt_self_append _ _

theorem strContains_inner (w m t1 t2 : String) :
    strContains (w ++ m ++ t1 ++ t2) m = true := by
  unfold strContains
  rw [String.data_append, String.data_append, String.data_append,
    List.append_assoc, List.append_assoc]
  apply strFindRun_append
  exact strFindRun_self_append _ _

/-- C4: in the deploy step with root-disk-size > 0 and a volume type set,
an existing same-named volume is reused (no volume creation); an absent one
is created from the image; the determined volume is awaited out of
{downloading, creating} into {available} and only then is the instance
booted from a block device carrying that volume's ID with
delete-on-termination set; any volume-creation or wait failure issues a
best-effort volume deletion whose result is appended after the original
error inside the returned message. -/
theorem C4_deployServer_volume_branch :
    ∀ (env : Env) (cfg : Spec) (machineName vt imageRef : String)
      (itr : List Action) (nws : List ServerNetwork),
      resolveImageRef env cfg = (.ok imageRef, itr) →
      (∀ flavorRef, env.flavorIDFromName cfg.flavorName = .ok flavorRef →
        0 < cfg.rootDiskSize →
        cfg.volumeType = some vt →
        (∀ v, checkBootVolume env machineName = (v, none) → v.id ≠ "" →
          obtainBootVolume env cfg machineName vt imageRef = (.ok v, []))
        ∧ (∀ v0, checkBootVolume env machineName = (v0, none) → v0.id = "" →
            (∀ v, env.createVolumeRes = .ok v →
              obtainBootVolume env cfg machineName vt imageRef
                = (.ok v, [.createVolume machineName cfg.rootDiskSize vt imageRef]))
            ∧ (∀ e, env.createVolumeRes = .error e →
                obtainBootVolume env cfg machineName vt imageRef
                  = (.error (.internal ("error volume creation, " ++ goErrMsg e
                      ++ " and deletion " ++ goErrMsgO (env.deleteVolumeRes ""))),
                     [.createVolume machineName cfg.rootDiskSize vt imageRef, .deleteVolume "" true])
                ∧ strContains ("error volume creation, " ++ goErrMsg e
                    ++ " and deletion " ++ goErrMsgO (env.deleteVolumeRes "")) (goErrMsg e)
                  = true))
        ∧ (∀ v tr3, obtainBootVolume env cfg machineName vt imageRef = (.ok v, tr3) →
            waitOutcome (waitForVolumeStatusRun [VolumeStatusDownloading, VolumeStatusCreating]
              [VolumeStatusAvailable] env.volumeWaitPolls) = none →
            deployServer env cfg machineName nws
              = (env.bootFromVolumeRes, itr ++ [.lookupFlavor cfg.flavorName] ++ tr3
                  ++ [.bootFromVolume machineName
                      [{ uuid := v.id, sourceType := "volume", destinationType := "volume",
                         volumeSize := 0, bootIndex := 0, deleteOnTermination := true }]]))
        ∧ (∀ v tr3 e, obtainBootVolume env cfg machineName vt imageRef = (.ok v, tr3) →
            waitOutcome (waitForVolumeStatusRun [VolumeStatusDownloading, VolumeStatusCreating]
              [VolumeStatusAvailable] env.volumeWaitPolls) = some e →
            deployServer env cfg machineName nws
              = (.error (.internal ("error waiting for volume, " ++ goErrMsg e
                  ++ " and deletion " ++ goErrMsgO (env.deleteVolumeRes v.id))),
                 itr ++ [.lookupFlavor cfg.flavorName] ++ tr3 ++ [.deleteVolume v.id true])
            ∧ strContains ("error waiting for volume, " ++ goErrMsg e
                ++ " and deletion " ++ goErrMsgO (env.deleteVolumeRes v.id)) (goErrMsg e)
              = true)) := by
  intro env cfg machineName vt imageRef itr nws hri flavorRef hfl hrd hvt
  refine ⟨?_, ?_, ?_, ?_⟩
  · intro v hcv hvne
    unfold obtainBootVolume
    rw [hcv]
    have hne : (v.id == "") = false := by simpa using hvne
    simp only [hne, Bool.false_eq_true, if_false]
  · intro v0 hcv hv0
    constructor
    · intro v hcr
      unfold obtainBootVolume
      rw [hcv]
      have he : (v0.id == "") = true := by simpa using hv0
      simp only [he, if_true, hcr]
    · intro e hcr
      constructor
      · unfold obtainBootVolume
        rw [hcv]
        have he : (v0.id == "") = true := by simpa using hv0
        simp only [he, if_true, hcr]
      · exact strContains_inner _ _ _ _
  · intro v tr3 hobv hw
    unfold deployServer
    rw [hri]
    simp only
    rw [hfl]
    simp only
    rw [if_pos hrd, hvt]
    simp only
    rw [hobv]
    simp only
    rw [hw]
    simp [resourceInstanceBlockDevicesV2]
  · intro v tr3 e hobv hw
    constructor
    · unfold deployServer
      rw [hri]
      simp only
      rw [hfl]
      simp only
      rw [if_pos hrd, hvt]
      simp only
      rw [hobv]
      simp only
      rw [hw]
    · exact strContains_inner _ _ _ _

/-- An environment with no pre-existing volume, a successful volume
creation, a wait that sees {creating} then {available}, and a successful
boot-from-volume. -/
def envC4 : Env :=
  { baseEnv with
    createVolumeRes := .ok ⟨"vol-9", "m", "creating"⟩
    volumeWaitPolls := [.ok ⟨"vol-9", "m", VolumeStatusCreating⟩,
                        .ok ⟨"vol-9", "m", VolumeStatusAvailable⟩]
    flavorIDFromName := fun _ => .ok "flav-1"
    bootFromVolumeRes := .ok srvA }

/-- A boot-from-persistent-volume configuration. -/
def cfgC4 : Spec := { baseCfg with rootDiskSize := 50, volumeType := some "ssd" }

/-- Witness for C4: the absent volume is created, awaited to available, and
the boot references its ID with delete-on-termination set. -/
theorem C4_deployServer_volume_branch_witness :
    obtainBootVolume envC4 cfgC4 "m" "ssd" "img-1"
      = (.ok ⟨"vol-9", "m", "creating"⟩, [.createVolume "m" 50 "ssd" "img-1"])
    ∧ deployServer envC4 cfgC4 "m" []
      = (.ok srvA,
         [.lookupFlavor "m1", .createVolume "m" 50 "ssd" "img-1",
          .bootFromVolume "m" [⟨"vol-9", "volume", "volume", 0, 0, true⟩]]) := by
  have h := C4_deployServer_volume_branch envC4 cfgC4 "m" "ssd" "img-1" [] []
    rfl "flav-1" rfl (by decide) rfl
  have hobv := (h.2.1 Volume.empty rfl rfl).1 ⟨"vol-9", "m", "creating"⟩ rfl
  refine ⟨hobv, ?_⟩
  have hds := h.2.2.1 ⟨"vol-9", "m", "creating"⟩ [.createVolume "m" 50 "ssd" "img-1"] hobv (by decide)
  exact hds.trans (by decide)
